import Mathlib

/-!
Verification of the mail-ai backend processing pipeline.

Shallow embedding of the Python sources under `mail-ai-backend/`:
* `services/email_processor/deduplicator.py`   — `EmailDeduplicator`
* `services/event_processor/context_engine.py` — `ContextEngine.get_thread_context`
* `services/event_processor/prompt_builder.py` — `PromptBuilder.build`
* `services/email_processor/summarizer.py`     — `EmailSummarizer`
* `common/ai_factory.py`                       — `AIFactory.get_service`
* `common/email_repository.py`                 — store read/write semantics
* `services/event_processor/processor.py`      — `EmailProcessor.process_event`
* `services/email_processor/processor.py`      — `EmailProcessor.process_email_event`

Modelling conventions: Python `datetime` values are represented by their epoch
value in seconds as a rational number (Gmail `internalDate` is epoch
milliseconds, and the code computes `int(internalDate) / 1000` with true
division, hence rationals, modelled as `mkRat internalDate 1000`); `datetime.fromtimestamp` is modelled in UTC.
Python sets are modelled as duplicate-free lists (membership is all that the
code observes, plus `len`).  The Mongo collection backing the repositories is
modelled as a list of records in insertion order.  External collaborators
(Gmail API, AI SDKs, credential refresh) are modelled by explicit
input parameters carrying the value they return or the exception they raise.
-/

/-- `common/models.py` `EmailLog` (pydantic v1 — the repo imports
`BaseSettings` from `pydantic`).  Fields exactly as declared there: note that
the model declares NO `ai_provider` field, even though every constructor call
site passes an `ai_provider` keyword.  `full_body` defaults to `None`,
`direction` defaults to `"inbound"`; `timestamp` is the message's own time. -/
structure EmailLog where
  user_email : String
  message_id : String
  thread_id : String
  sender : String
  subject : String
  summary : String
  full_body : Option String := none
  timestamp : Rat
  direction : String := "inbound"
deriving Repr, DecidableEq

/-- The `EmailLog(...)` constructor exactly as the three call sites invoke it
(`context_engine.py`, `event_processor/processor.py`,
`email_processor/processor.py`): each passes an `ai_provider` keyword
argument, but since `common/models.py` declares no such field, pydantic v1's
default `Extra.ignore` silently drops it — the value reaches neither the
object nor, via `.dict()`, the persisted document. -/
def emailLogOfKwargs (user_email message_id thread_id sender subject summary
    ai_provider : String) (timestamp : Rat)
    (direction : String := "inbound") : EmailLog :=
  { user_email := user_email, message_id := message_id, thread_id := thread_id,
    sender := sender, subject := subject, summary := summary,
    timestamp := timestamp, direction := direction }

/-- `collections.deque(maxlen=m)` append semantics: appending to a full deque
silently drops the leftmost (oldest) element; a `maxlen=0` deque stays empty.
The list holds the deque contents oldest-first. -/
def dequeAppend (q : List String) (x : String) (m : Nat) : List String :=
  (q ++ [x]).drop (q.length + 1 - m)

/-- Python `set.add`: sets are modelled as duplicate-free lists. -/
def setAdd (s : List String) (x : String) : List String :=
  if x ∈ s then s else s ++ [x]

/-- `services/email_processor/deduplicator.py` `EmailDeduplicator.__init__`:
`_seen_ids` is a `set`, `_recent_ids` a `deque(maxlen=max_size)`. -/
structure EmailDeduplicator where
  seen_ids : List String
  recent_ids : List String
  max_size : Nat
deriving Repr, DecidableEq

/-- `EmailDeduplicator(max_size)` constructor. -/
def EmailDeduplicator.init (max_size : Nat) : EmailDeduplicator :=
  ⟨[], [], max_size⟩

/-- The `while len(self._seen_ids) > self._recent_ids.maxlen:` cleanup loop in
`mark_processed`: pop the deque's leftmost element and discard it from the set
until the set is small enough.  The returned Bool records whether the loop ran
out of deque entries (`deque.popleft()` on an empty deque raises IndexError). -/
def dedupCleanup (m : Nat) : List String → List String → List String × List String × Bool
  | seen, [] => if seen.length ≤ m then (seen, [], false) else (seen, [], true)
  | seen, oldest :: rest =>
    if seen.length ≤ m then (seen, oldest :: rest, false)
    else dedupCleanup m (seen.erase oldest) rest

/-- `EmailDeduplicator.is_duplicate`: `message_id in self._seen_ids`. -/
def EmailDeduplicator.is_duplicate (d : EmailDeduplicator) (message_id : String) : Bool :=
  d.seen_ids.contains message_id

/-- `EmailDeduplicator.mark_processed`: add to the set, append to the deque
(which silently evicts the deque's own oldest entry when full), then run the
cleanup loop.  Returns the mutated state and whether IndexError was raised. -/
def EmailDeduplicator.mark_processed (d : EmailDeduplicator) (message_id : String) :
    EmailDeduplicator × Bool :=
  let seen := setAdd d.seen_ids message_id
  let q := dequeAppend d.recent_ids message_id d.max_size
  let r := dedupCleanup d.max_size seen q
  (⟨r.1, r.2.1, d.max_size⟩, r.2.2)

/-- `EmailDeduplicator.clear_cache`. -/
def EmailDeduplicator.clear_cache (d : EmailDeduplicator) : EmailDeduplicator :=
  ⟨[], [], d.max_size⟩

/-- Zero-pad a natural number to two digits (`strftime` field). -/
def pad2 (n : Nat) : String :=
  if n < 10 then "0" ++ toString n else toString n

/-- Zero-pad a year to four digits (`strftime` `%Y`). -/
def pad4 (n : Int) : String :=
  if n < 0 then "-" ++ toString (-n)
  else if n < 10 then "000" ++ toString n
  else if n < 100 then "00" ++ toString n
  else if n < 1000 then "0" ++ toString n
  else toString n

/-- Gregorian civil date from a count of days since 1970-01-01
(standard era-based conversion; used to model `datetime`'s calendar). -/
def civilFromDays (z0 : Int) : Int × Nat × Nat :=
  let z := z0 + 719468
  let era := Int.fdiv z 146097
  let doe := (z - era * 146097).toNat
  let yoe := (doe - doe / 1460 + doe / 36524 - doe / 146096) / 365
  let doy := doe - (365 * yoe + yoe / 4 - yoe / 100)
  let mp := (5 * doy + 2) / 153
  let d := doy - (153 * mp + 2) / 5 + 1
  let m := if mp < 10 then mp + 3 else mp - 9
  ((yoe : Int) + era * 400 + (if m ≤ 2 then 1 else 0), m, d)

/-- `datetime.strftime('%Y-%m-%d %H:%M')` of an epoch timestamp in seconds
(`datetime.fromtimestamp` modelled in UTC; the code's rendering is
timezone-shifted by the host's locale, which no claim depends on). -/
def strftimeYmdHM (t : Rat) : String :=
  let total : Int := t.floor
  let days : Int := Int.fdiv total 86400
  let rem : Nat := (total - days * 86400).toNat
  let ymd := civilFromDays days
  pad4 ymd.1 ++ "-" ++ pad2 ymd.2.1 ++ "-" ++ pad2 ymd.2.2 ++ " " ++
    pad2 (rem / 3600) ++ ":" ++ pad2 (rem % 3600 / 60)

/-- `ContextEngine._format_logs`: one line per log,
`"[%Y-%m-%d %H:%M] {sender} said: {summary}"`, joined by newlines; the fixed
sentinel `"No previous context available."` when the list is empty. -/
def formatLogs (logs : List EmailLog) : String :=
  let history_text := logs.map (fun log =>
    "[" ++ strftimeYmdHM log.timestamp ++ "] " ++ log.sender ++ " said: " ++ log.summary)
  if history_text.isEmpty then "No previous context available."
  else String.intercalate "\n" history_text

/-- Python `lst[-n:]` for a non-negative `n`: the last `n` elements — except
that `lst[-0:]` is the whole list (`-0 == 0`). -/
def pySliceLast (l : List EmailLog) (n : Nat) : List EmailLog :=
  if n = 0 then l else l.drop (l.length - n)

/-- Stable insert for ascending-timestamp sorting: the new element goes in
front of the first element whose key it does not exceed, so elements with
equal keys keep their original relative order. -/
def insertByTs (x : EmailLog) : List EmailLog → List EmailLog
  | [] => [x]
  | y :: ys =>
    if x.timestamp ≤ y.timestamp then x :: y :: ys else y :: insertByTs x ys

/-- Stable ascending sort by timestamp: the ordering contract shared by
Python's stable `list.sort(key=lambda x: x['timestamp'])` and Mongo's
`sort("timestamp", 1)` (whose tie order is modelled as insertion order). -/
def sortByTs : List EmailLog → List EmailLog
  | [] => []
  | x :: xs => insertByTs x (sortByTs xs)

/-- `common/email_repository.py` `get_thread_logs`: filter the collection by
`thread_id`, sort ascending by timestamp, truncate to `limit`. -/
def get_thread_logs (store : List EmailLog) (thread_id : String) (limit : Nat) :
    List EmailLog :=
  ((sortByTs (store.filter (fun l => l.thread_id = thread_id))).take limit)

/-- `common/email_repository.py` `get_email_log_by_message_id`:
`find_one({"message_id": message_id})`, modelled as the first match in
insertion order. -/
def get_email_log_by_message_id (store : List EmailLog) (message_id : String) :
    Option EmailLog :=
  store.find? (fun l => l.message_id = message_id)

/-- One Gmail message header (`{'name': ..., 'value': ...}`). -/
structure GHeader where
  name : String
  value : String
deriving Repr, DecidableEq

/-- One message of a Gmail thread as `ContextEngine` reads it: `msg['id']`,
`msg['payload']['headers']`, `msg.get('snippet','')`, `msg['internalDate']`
(epoch milliseconds). -/
structure GmailMsg where
  id : String
  headers : List GHeader
  snippet : String
  internalDate : Int
deriving Repr, DecidableEq

/-- `next((h['value'] for h in headers if h['name'] == name), default)` —
case-sensitive header lookup as written in `context_engine.py` and
`event_processor/processor.py`. -/
def headerValue (headers : List GHeader) (name default : String) : String :=
  ((headers.find? (fun h => h.name = name)).map (fun h => h.value)).getD default

/-- The backfill `EmailLog` synthesized by `ContextEngine.get_thread_context`
for one thread message: tagged snippet summary, timestamp
`internalDate / 1000`, pydantic-default direction.  The source passes
`ai_provider="system-backfill"`, which the constructor silently drops
(see `emailLogOfKwargs`). -/
def backfillLog (thread_id user_email : String) (msg : GmailMsg) : EmailLog :=
  emailLogOfKwargs user_email msg.id thread_id
    (headerValue msg.headers "From" "Unknown")
    (headerValue msg.headers "Subject" "No Subject")
    ("[Backfilled] " ++ msg.snippet) "system-backfill"
    (mkRat msg.internalDate 1000)

/-- The `for msg in messages:` loop of `get_thread_context`: one backfill
log per thread message that is neither the current message nor among the
`message_id`s of the already-read persisted logs. -/
def backfillBatch (messages : List GmailMsg) (existing_ids : List String)
    (tid ue cur : String) : List EmailLog :=
  messages.filterMap (fun msg =>
    if msg.id = cur ∨ msg.id ∈ existing_ids then none
    else some (backfillLog tid ue msg))

/-- Observable outcome of one `ContextEngine.get_thread_context` call:
the returned string, the collection after the call, the batch durably written
by `insert_email_logs` (`[]` when none), the batch handed to
`insert_email_logs` even if that write raised, whether the provider
thread-fetch was attempted, and whether the `except` block caught an error. -/
structure CtxResult where
  output : String
  store : List EmailLog
  inserted : List EmailLog
  attempted : List EmailLog
  fetched : Bool
  caught : Bool
deriving Repr, DecidableEq

/-- `services/event_processor/context_engine.py` `get_thread_context`.
`threadFetch` is what `gmail_service...threads().get(...).execute()` returns
(`.error` = that call raised); `insertOk = false` means
`insert_email_logs` raised.  `limit` is the caller's `context_depth`. -/
def get_thread_context (store : List EmailLog)
    (threadFetch : Except String (List GmailMsg)) (insertOk : Bool)
    (thread_id user_email current_message_id : String) (limit : Nat) : CtxResult :=
  if thread_id = "" then
    { output := "", store := store, inserted := [], attempted := [],
      fetched := false, caught := false }
  else
    let existing_logs := get_thread_logs store thread_id 100
    if limit ≤ existing_logs.length then
      { output := formatLogs (pySliceLast existing_logs limit), store := store,
        inserted := [], attempted := [], fetched := false, caught := false }
    else
      match threadFetch with
      | .error _ =>
        { output := formatLogs (pySliceLast existing_logs limit), store := store,
          inserted := [], attempted := [], fetched := true, caught := true }
      | .ok messages =>
        let existing_ids := existing_logs.map (fun l => l.message_id)
        let new_logs := backfillBatch messages existing_ids thread_id
          user_email current_message_id
        if new_logs.isEmpty then
          { output := formatLogs (pySliceLast existing_logs limit), store := store,
            inserted := [], attempted := [], fetched := true, caught := false }
        else if insertOk then
          let merged := sortByTs (existing_logs ++ new_logs)
          { output := formatLogs (pySliceLast merged limit),
            store := store ++ new_logs, inserted := new_logs,
            attempted := new_logs, fetched := true, caught := false }
        else
          { output := formatLogs (pySliceLast existing_logs limit), store := store,
            inserted := [], attempted := new_logs, fetched := true, caught := true }

/-- Exception classes that `str.format` can raise and the code's `except`
clauses distinguish (`prompt_builder.py` catches only `KeyError`). -/
inductive PyErr where
  | keyError (name : String)
  | indexError (msg : String)
  | valueError (msg : String)
  | attrError (msg : String)
deriving Repr, DecidableEq

/-- Whether an exception is a `KeyError` (the only class
`PromptBuilder.build` and `EmailSummarizer._build_prompt` catch). -/
def PyErr.isKeyError : PyErr → Bool
  | .keyError _ => true
  | _ => false

/-- `str(e)` for the modelled exceptions (`str(KeyError(k))` is `repr(k)`). -/
def PyErr.message : PyErr → String
  | .keyError n => "'" ++ n ++ "'"
  | .indexError m => m
  | .valueError m => m
  | .attrError m => m

def lbraceC : Char := Char.ofNat 123
def rbraceC : Char := Char.ofNat 125
def exclC : Char := Char.ofNat 33
def colonC : Char := Char.ofNat 58
def dotC : Char := Char.ofNat 46
def lbrackC : Char := Char.ofNat 91

/-- Evaluate one `str.format` replacement field (the text between the braces)
against keyword arguments `context` and `email_content` — the only two the
code ever passes.  An empty or all-digit field name is an automatic/positional
index, which raises `IndexError` because no positional arguments are passed;
any other unknown name raises `KeyError`; attribute/item access on a known
name raises past `KeyError`; conversions and a non-empty format spec are not
modelled and conservatively mapped to `ValueError` (no claim exercises
them — CPython would accept some of these). -/
def evalField (content : List Char) (context email_content : String) :
    Except PyErr String :=
  let nameFull := content.takeWhile (fun c => ¬(c = exclC ∨ c = colonC))
  let trailer := content.drop nameFull.length
  let base := nameFull.takeWhile (fun c => ¬(c = dotC ∨ c = lbrackC))
  if base.length = 0 ∨ base.all Char.isDigit then
    .error (.indexError "Replacement index out of range")
  else if String.mk base = "context" ∨ String.mk base = "email_content" then
    if base.length ≠ nameFull.length then
      .error (.attrError (String.mk nameFull))
    else if trailer.length = 0 ∨ trailer = [colonC] then
      .ok (if String.mk base = "context" then context else email_content)
    else
      .error (.valueError "conversion or format spec not modelled")
  else
    .error (.keyError (String.mk base))

/-- The scanning loop of `str.format` for a template over keyword arguments
`context` / `email_content`.  The `Option (List Char)` state is `some content`
while inside a replacement field.  Doubled braces are literal braces; an
unmatched single brace raises `ValueError` (nested braces inside a field are
not modelled). -/
def pyFormatGo (context email_content : String) :
    List Char → Option (List Char) → String → Except PyErr String
  | [], none, acc => .ok acc
  | [], some _, _ =>
    .error (.valueError "Single brace encountered: expected closing brace before end of string")
  | c :: rest, some content, acc =>
    if c = rbraceC then
      match evalField content context email_content with
      | .ok v => pyFormatGo context email_content rest none (acc ++ v)
      | .error e => .error e
    else pyFormatGo context email_content rest (some (content ++ [c])) acc
  | [c], none, acc =>
    if c = lbraceC ∨ c = rbraceC then
      .error (.valueError "Single brace encountered in format string")
    else .ok (acc.push c)
  | c :: d :: rest, none, acc =>
    if c = lbraceC then
      if d = lbraceC then pyFormatGo context email_content rest none (acc.push c)
      else pyFormatGo context email_content (d :: rest) (some []) acc
    else if c = rbraceC then
      if d = rbraceC then pyFormatGo context email_content rest none (acc.push c)
      else .error (.valueError "Single brace encountered in format string")
    else pyFormatGo context email_content (d :: rest) none (acc.push c)

/-- `template.format(context=..., email_content=...)`. -/
def pyFormat (template context email_content : String) : Except PyErr String :=
  pyFormatGo context email_content template.data none ""

/-- `PromptBuilder.DEFAULT_TEMPLATE` (the triple-quoted literal in
`prompt_builder.py`, whitespace included). -/
def DEFAULT_TEMPLATE : String :=
  "\n    You are a helpful assistant.\n    \n    PREVIOUS CONTEXT:\n    \x7bcontext\x7d\n    \n    NEW EMAIL:\n    \x7bemail_content\x7d\n    \n    TASK:\n    Summarize the new email. If it refers to the context, explain the connection.\n    "

/-- `services/event_processor/prompt_builder.py` `PromptBuilder.build`:
empty context is replaced by the fixed phrase, then the configured template is
formatted; only `KeyError` triggers the fallback to `DEFAULT_TEMPLATE`; any
other formatting exception propagates (`.error`). -/
def PromptBuilder.build (template context_str email_content : String) :
    Except PyErr String :=
  let clean_context :=
    if context_str = "" then "No previous conversation history." else context_str
  match pyFormat template clean_context email_content with
  | .ok s => .ok s
  | .error (.keyError _) => pyFormat DEFAULT_TEMPLATE clean_context email_content
  | .error e => .error e

/-- `services/email_processor/summarizer.py` `EmailSummarizer._build_prompt`:
same empty-context substitution on the normal path, but the `KeyError`
fallback is an f-string that interpolates the RAW `context` argument. -/
def EmailSummarizer.build_prompt (template context email_content : String) :
    Except PyErr String :=
  match pyFormat template
      (if context = "" then "No previous conversation history." else context)
      email_content with
  | .ok s => .ok s
  | .error (.keyError _) =>
    .ok ("Context: " ++ context ++ "\n\nEmail: " ++ email_content ++
      "\n\nPlease summarize this email.")
  | .error e => .error e

/-- `common/ai_factory.py` `AIFactory.get_service`.  `geminiInit` and
`openaiInit` model the service constructors, which touch only credentials and
SDK imports (`.error` = the constructor raised, e.g. missing API key).  An
unknown provider name raises `ValueError(f"Unknown AI Provider: ...")`. -/
def AIFactory.get_service (provider_name : String)
    (geminiInit openaiInit : Except String Unit) : Except String Unit :=
  if provider_name = "gemini" then geminiInit
  else if provider_name = "openai" then openaiInit
  else .error ("Unknown AI Provider: " ++ provider_name)

/-- `services/email_processor/summarizer.py` `EmailSummarizer.summarize_email`:
builds the service, builds the prompt, calls the provider; its blanket
`except` turns any raised error into the string
`"AI Summarization Failed: " ++ str(e)`.  `aiResponse` is what the provider
variant's `summarize` returns (the variants catch their own call failures and
return sentinel strings, so that call itself is modelled as total).  The Bool
records whether the AI capability was invoked. -/
def EmailSummarizer.summarize_email
    (context_str email_content ai_provider prompt_template : String)
    (geminiInit openaiInit : Except String Unit) (aiResponse : String) :
    String × Bool :=
  match AIFactory.get_service ai_provider geminiInit openaiInit with
  | .error e => ("AI Summarization Failed: " ++ e, false)
  | .ok _ =>
    match EmailSummarizer.build_prompt prompt_template context_str email_content with
    | .error e => ("AI Summarization Failed: " ++ e.message, false)
    | .ok _ => (aiResponse, true)

deriving instance DecidableEq for Except

/-- The fields of the user document that `process_event` reads.
`context_depth` and `ai_provider` stand for
`user.get('settings', {}).get('context_depth', 10)` and
`...get('ai_provider', 'gemini')` after default resolution; `is_active` for
`user.get('is_active', False)`; `last_started_at` is the nullable activation
timestamp (epoch seconds). -/
structure UserRec where
  is_active : Bool
  last_started_at : Option Rat
  context_depth : Nat
  ai_provider : String
deriving Repr, DecidableEq

/-- `messages().list(maxResults=1)` result entry: `id` and `threadId`. -/
structure MsgRef where
  id : String
  threadId : String
deriving Repr, DecidableEq

/-- Everything external one `process_event` call consumes: the user document,
whether credential refresh / metadata fetch succeeded (a raise there is
swallowed by the orchestrator's blanket `except`), the newest inbox message
and its metadata, the thread fetch, write outcomes, AI constructor outcomes,
the provider's reply, and the configured prompt template
(`os.getenv("CONTEXT_AWARE_PROMPT", DEFAULT_TEMPLATE)`). -/
structure Env where
  user : Option UserRec
  credsOk : Bool
  listedMsg : Option MsgRef
  internalDate : Int
  labelIds : List String
  headers : List GHeader
  snippet : String
  threadFetch : Except String (List GmailMsg)
  backfillInsertOk : Bool
  geminiInit : Except String Unit
  openaiInit : Except String Unit
  aiResponse : String
  promptTemplate : String
  logInsertOk : Bool
deriving Repr, DecidableEq

/-- Observable side effects of one orchestrator run, in program order:
provider thread fetch, durable backfill batch write, AI capability
invocation, durable summary-log write. -/
inductive Effect where
  | threadFetch
  | backfillWrite (batch : List EmailLog)
  | aiCall
  | summaryWrite (log : EmailLog)
deriving Repr, DecidableEq

/-- Mutable state across `EmailProcessor` (event_processor) runs: the Mongo
collection and the `LocalHistory` deque (`deque(maxlen=1000)`, oldest
first — membership is `message_id in self._seen_ids`). -/
structure PState where
  store : List EmailLog
  history : List String
  historyMax : Nat
deriving Repr, DecidableEq

/-- The age gate `if last_started and email_time < last_started`. -/
def ageSkip (last_started : Option Rat) (email_time : Rat) : Bool :=
  match last_started with
  | none => false
  | some t => decide (email_time < t)

/-- The post-gate stage of `process_event` (from `direction = ...` on):
context assembly, prompt composition (an uncaught formatting error aborts the
run via the blanket `except`, keeping any backfill the context engine already
persisted), AI dispatch (the inner `except` converts a raised
`get_service`/constructor error into an `"[AI ERROR]: ..."` summary while the
variants' own failures come back as `aiResponse` text), summary-log insert,
history update (skipped when the insert raises). -/
def process_core (email_address : String) (env : Env) (s : PState)
    (user : UserRec) (mref : MsgRef) : PState × List Effect :=
  let msg_id := mref.id
  let email_time : Rat := mkRat env.internalDate 1000
  let direction := if env.labelIds.contains "SENT" then "outbound" else "inbound"
  let subject := headerValue env.headers "Subject" "No Subject"
  let sender := headerValue env.headers "From" "Unknown"
  let ctx := get_thread_context s.store env.threadFetch env.backfillInsertOk
    mref.threadId email_address msg_id user.context_depth
  let eff0 : List Effect :=
    (if ctx.fetched then [Effect.threadFetch] else []) ++
    (if ctx.inserted.isEmpty then [] else [Effect.backfillWrite ctx.inserted])
  match PromptBuilder.build env.promptTemplate ctx.output env.snippet with
  | .error _ => ({ s with store := ctx.store }, eff0)
  | .ok _ =>
    let sres : String × List Effect :=
      match AIFactory.get_service user.ai_provider env.geminiInit env.openaiInit with
      | .error e => ("[AI ERROR]: " ++ e, eff0)
      | .ok _ => (env.aiResponse, eff0 ++ [Effect.aiCall])
    let log : EmailLog := emailLogOfKwargs email_address msg_id mref.threadId
      sender subject sres.1 user.ai_provider email_time direction
    if env.logInsertOk then
      ({ store := ctx.store ++ [log],
         history := dequeAppend s.history msg_id s.historyMax,
         historyMax := s.historyMax }, sres.2 ++ [Effect.summaryWrite log])
    else ({ s with store := ctx.store }, sres.2)

/-- `services/event_processor/processor.py` `EmailProcessor.process_event`:
user gate, credential setup, newest-message fetch, age gate, duplicate gate
(LocalHistory OR persisted log; on a hit the history is updated and the call
returns), draft gate, then the post-gate stage `process_core`. -/
def process_event (email_address : String) (env : Env) (s : PState) :
    PState × List Effect :=
  match env.user with
  | none => (s, [])
  | some user =>
    if ¬ user.is_active then (s, [])
    else if ¬ env.credsOk then (s, [])
    else
      match env.listedMsg with
      | none => (s, [])
      | some mref =>
        if ageSkip user.last_started_at (mkRat env.internalDate 1000) then (s, [])
        else if s.history.contains mref.id ||
            (get_email_log_by_message_id s.store mref.id).isSome then
          ({ s with history := dequeAppend s.history mref.id s.historyMax }, [])
        else if env.labelIds.contains "DRAFT" then (s, [])
        else process_core email_address env s user mref

/-- Fold `process_event` over a sequence of sequential (non-interleaved)
events. -/
def runEvents (email_address : String) (envs : List Env) (s : PState) : PState :=
  envs.foldl (fun st env => (process_event email_address env st).1) s

/-- `EmailParser.parse_email` output as `process_email_event` consumes it
(`None` when the fetch/extraction raised). -/
structure ParsedEmail where
  subject : String
  sender : String
  snippet : String
  label_ids : List String
deriving Repr, DecidableEq

/-- External inputs of one `process_email_event` call (email_processor
variant); fields as in `Env`, with the full-message parse result in place of
raw labels/headers. -/
structure EPEnv where
  user : Option UserRec
  credsOk : Bool
  listedMsg : Option MsgRef
  internalDate : Int
  parsed : Option ParsedEmail
  threadFetch : Except String (List GmailMsg)
  backfillInsertOk : Bool
  geminiInit : Except String Unit
  openaiInit : Except String Unit
  aiResponse : String
  promptTemplate : String
  logInsertOk : Bool
deriving Repr, DecidableEq

/-- Mutable state across `EmailProcessor` (email_processor) runs: the Mongo
collection and the `EmailDeduplicator`. -/
structure EPState where
  store : List EmailLog
  dedup : EmailDeduplicator
deriving Repr, DecidableEq

/-- `EmailValidator.validate_email_age`: `True` unless the message predates
`last_started_at`. -/
def validate_email_age (email_timestamp : Rat) (user_last_started : Option Rat) : Bool :=
  match user_last_started with
  | none => true
  | some t => ! decide (email_timestamp < t)

/-- `EmailValidator.validate_not_duplicate`: `True` iff no persisted log has
this `message_id` (the deduplicator is NOT consulted here). -/
def validate_not_duplicate (store : List EmailLog) (message_id : String) : Bool :=
  (get_email_log_by_message_id store message_id).isNone

/-- `EmailValidator.validate_draft_exclusion`: `True` iff no draft label. -/
def validate_draft_exclusion (label_ids : List String) : Bool :=
  ! label_ids.contains "DRAFT"

/-- Modelled from the spec: `services/email_processor/context_builder.py` is
imported by `services/email_processor/processor.py` but is missing from the
sources.  Spec section 4.3 gives its contract
`build_context(thread_id, user_email, current_message_id, depth)` the same
algorithm that `ContextEngine.get_thread_context` implements (read up to 100
persisted thread logs ascending, short-circuit when they already meet the
depth, otherwise backfill-and-merge with provider errors contained), so it is
modelled by that embedding. -/
def ContextBuilder.build_context (store : List EmailLog)
    (threadFetch : Except String (List GmailMsg)) (insertOk : Bool)
    (thread_id user_email current_message_id : String) (depth : Nat) : CtxResult :=
  get_thread_context store threadFetch insertOk thread_id user_email
    current_message_id depth

/-- The post-gate stage of `process_email_event` (steps 8-11): context
building, summarization (total — `summarize_email` catches everything),
persistence, `mark_processed`. -/
def ep_core (email_address : String) (env : EPEnv) (s : EPState)
    (user : UserRec) (mref : MsgRef) (info : ParsedEmail) :
    EPState × List Effect :=
  let msg_id := mref.id
  let email_time : Rat := mkRat env.internalDate 1000
  let ctx := ContextBuilder.build_context s.store env.threadFetch
    env.backfillInsertOk mref.threadId email_address msg_id user.context_depth
  let eff0 : List Effect :=
    (if ctx.fetched then [Effect.threadFetch] else []) ++
    (if ctx.inserted.isEmpty then [] else [Effect.backfillWrite ctx.inserted])
  let sres := EmailSummarizer.summarize_email ctx.output info.snippet
    user.ai_provider env.promptTemplate env.geminiInit env.openaiInit
    env.aiResponse
  let eff1 := eff0 ++ (if sres.2 then [Effect.aiCall] else [])
  let direction := if info.label_ids.contains "SENT" then "outbound" else "inbound"
  let log : EmailLog := emailLogOfKwargs email_address msg_id mref.threadId
    info.sender info.subject sres.1 user.ai_provider email_time direction
  if env.logInsertOk then
    ({ store := ctx.store ++ [log],
       dedup := (s.dedup.mark_processed msg_id).1 },
     eff1 ++ [Effect.summaryWrite log])
  else ({ s with store := ctx.store }, eff1)

/-- `services/email_processor/processor.py`
`EmailProcessor.process_email_event`: validator gates in order (user active,
age, not-duplicate — persisted-store only, draft exclusion), parsing, context
building, summarization (which never raises), persistence, then
`mark_processed`.  On a duplicate hit the deduplicator is updated and the
call returns with no write. -/
def process_email_event (email_address : String) (env : EPEnv) (s : EPState) :
    EPState × List Effect :=
  match env.user with
  | none => (s, [])
  | some user =>
    if ¬ user.is_active then (s, [])
    else if ¬ env.credsOk then (s, [])
    else
      match env.listedMsg with
      | none => (s, [])
      | some mref =>
        let msg_id := mref.id
        let email_time : Rat := mkRat env.internalDate 1000
        if ¬ validate_email_age email_time user.last_started_at then (s, [])
        else if ¬ validate_not_duplicate s.store msg_id then
          ({ s with dedup := (s.dedup.mark_processed msg_id).1 }, [])
        else
          match env.parsed with
          | none => (s, [])
          | some info =>
            if ¬ validate_draft_exclusion info.label_ids then (s, [])
            else ep_core email_address env s user mref info

/-- Fold `process_email_event` over a sequence of sequential events. -/
def runEmailEvents (email_address : String) (envs : List EPEnv) (s : EPState) :
    EPState :=
  envs.foldl (fun st env => (process_email_event email_address env st).1) s

/-- Number of stored logs carrying a given `message_id`. -/
def countLogs (store : List EmailLog) (message_id : String) : Nat :=
  (store.filter (fun l => l.message_id = message_id)).length

/-- Fixture: a persisted log at t = 60 s in thread "T" (message A). -/
def fixLogA : EmailLog :=
  { user_email := "u", message_id := "A", thread_id := "T", sender := "alice",
    subject := "s", summary := "sumA", timestamp := 60 }

/-- Fixture: a persisted log at t = 180 s in thread "T" (message C). -/
def fixLogC : EmailLog :=
  { user_email := "u", message_id := "C", thread_id := "T", sender := "carol",
    subject := "s", summary := "sumC", timestamp := 180 }

/-- Fixture: provider thread messages A, B, C, D at minutes 1..4. -/
def fixMsgs : List GmailMsg :=
  [⟨"A", [⟨"From", "alice"⟩], "snipA", 60000⟩,
   ⟨"B", [⟨"From", "bob"⟩], "snipB", 120000⟩,
   ⟨"C", [⟨"From", "carol"⟩], "snipC", 180000⟩,
   ⟨"D", [⟨"From", "dave"⟩], "snipD", 240000⟩]

/-- Fixture: an active user with default settings and provider "foo". -/
def fixUserFoo : UserRec := ⟨true, none, 10, "foo"⟩

/-- Fixture: a fully successful environment whose user chose the unknown
provider "foo". -/
def fixEnvFoo : Env :=
  { user := some fixUserFoo, credsOk := true, listedMsg := some ⟨"m1", "T"⟩,
    internalDate := 60000, labelIds := [], headers := [⟨"From", "al"⟩],
    snippet := "snip", threadFetch := .ok [], backfillInsertOk := true,
    geminiInit := .ok (), openaiInit := .ok (), aiResponse := "RESP",
    promptTemplate := DEFAULT_TEMPLATE, logInsertOk := true }

/-- Fixture: empty event-processor state. -/
def fixState0 : PState := ⟨[], [], 1000⟩

/-- Fixture: `fixEnvFoo` with the user switched inactive. -/
def fixEnvInactive : Env :=
  { fixEnvFoo with user := some { fixUserFoo with is_active := false } }

/-- Fixture: empty email-processor state. -/
def fixEPState0 : EPState := ⟨[], EmailDeduplicator.init 1000⟩

/-- Fixture: a fully successful email-processor environment (provider
"gemini", message m1 in thread "T"). -/
def fixEPEnv : EPEnv :=
  { user := some { fixUserFoo with ai_provider := "gemini" }, credsOk := true,
    listedMsg := some ⟨"m1", "T"⟩, internalDate := 60000,
    parsed := some ⟨"subj", "snd", "snip", []⟩, threadFetch := .ok [],
    backfillInsertOk := true, geminiInit := .ok (), openaiInit := .ok (),
    aiResponse := "RESP", promptTemplate := DEFAULT_TEMPLATE, logInsertOk := true }

/-- Fixture: `fixEPEnv` with the user switched inactive. -/
def fixEPEnvInactive : EPEnv :=
  { fixEPEnv with user := some { fixUserFoo with is_active := false } }

/-- True iff any durable summary-log write is the final effect of a run
(so in particular no AI call and no other effect follows it). -/
def summaryWriteLast : List Effect → Bool
  | [] => true
  | Effect.summaryWrite _ :: rest => rest.isEmpty
  | _ :: rest => summaryWriteLast rest

/-- The deduplicator-soundness invariant of the email_processor variant:
every identifier the `EmailDeduplicator` holds already has a persisted log
(its `mark_processed` call sites run only when that is so). -/
def trackerSound (s : EPState) : Prop :=
  ∀ id ∈ s.dedup.seen_ids, (get_email_log_by_message_id s.store id).isSome

/- ===================== theorems ===================== -/

theorem countLogs_append (a b : List EmailLog) (m : String) :
    countLogs (a ++ b) m = countLogs a m + countLogs b m := by
  simp [countLogs, List.filter_append]

theorem countLogs_eq_zero_iff (store : List EmailLog) (m : String) :
    countLogs store m = 0 ↔ get_email_log_by_message_id store m = none := by
  simp [countLogs, get_email_log_by_message_id, List.length_eq_zero,
    List.filter_eq_nil_iff, List.find?_eq_none]


theorem countLogs_eq_zero_of_forall (l : List EmailLog) (m : String)
    (h : ∀ x ∈ l, x.message_id ≠ m) : countLogs l m = 0 := by
  simp only [countLogs, List.length_eq_zero, List.filter_eq_nil_iff]
  intro x hx
  simpa using h x hx

theorem mem_backfillBatch (messages : List GmailMsg) (ids : List String)
    (tid ue cur : String) (l : EmailLog) :
    l ∈ backfillBatch messages ids tid ue cur ↔
      ∃ msg ∈ messages, ¬(msg.id = cur ∨ msg.id ∈ ids) ∧ l = backfillLog tid ue msg := by
  simp only [backfillBatch, List.mem_filterMap]
  constructor
  · rintro ⟨msg, hmem, hf⟩
    by_cases h : msg.id = cur ∨ msg.id ∈ ids
    · simp [h] at hf
    · simp only [if_neg h, Option.some_inj] at hf
      exact ⟨msg, hmem, h, hf.symm⟩
  · rintro ⟨msg, hmem, h, rfl⟩
    exact ⟨msg, hmem, by simp [if_neg h]⟩

theorem countLogs_backfillBatch_current (messages : List GmailMsg)
    (ids : List String) (tid ue cur : String) :
    countLogs (backfillBatch messages ids tid ue cur) cur = 0 := by
  apply countLogs_eq_zero_of_forall
  intro x hx
  rw [mem_backfillBatch] at hx
  obtain ⟨msg, _, h, rfl⟩ := hx
  simpa [backfillLog, emailLogOfKwargs] using fun hc => h (Or.inl hc)

theorem ctx_eq_empty_tid (store : List EmailLog)
    (tf : Except String (List GmailMsg)) (ok : Bool) (ue cur : String) (lim : Nat) :
    get_thread_context store tf ok "" ue cur lim =
      ⟨"", store, [], [], false, false⟩ := by
  simp [get_thread_context]

theorem ctx_eq_sufficient (store : List EmailLog)
    (tf : Except String (List GmailMsg)) (ok : Bool) (tid ue cur : String)
    (lim : Nat) (h1 : tid ≠ "")
    (h2 : lim ≤ (get_thread_logs store tid 100).length) :
    get_thread_context store tf ok tid ue cur lim =
      ⟨formatLogs (pySliceLast (get_thread_logs store tid 100) lim), store,
        [], [], false, false⟩ := by
  simp [get_thread_context, h1, h2]

theorem ctx_eq_fetch_error (store : List EmailLog) (e : String) (ok : Bool)
    (tid ue cur : String) (lim : Nat) (h1 : tid ≠ "")
    (h2 : ¬ lim ≤ (get_thread_logs store tid 100).length) :
    get_thread_context store (.error e) ok tid ue cur lim =
      ⟨formatLogs (pySliceLast (get_thread_logs store tid 100) lim), store,
        [], [], true, true⟩ := by
  simp [get_thread_context, h1, h2]

theorem ctx_eq_no_new (store : List EmailLog) (messages : List GmailMsg)
    (ok : Bool) (tid ue cur : String) (lim : Nat) (h1 : tid ≠ "")
    (h2 : ¬ lim ≤ (get_thread_logs store tid 100).length)
    (h3 : backfillBatch messages
      ((get_thread_logs store tid 100).map (fun l => l.message_id)) tid ue cur = []) :
    get_thread_context store (.ok messages) ok tid ue cur lim =
      ⟨formatLogs (pySliceLast (get_thread_logs store tid 100) lim), store,
        [], [], true, false⟩ := by
  simp [get_thread_context, h1, h2, h3]

theorem ctx_eq_insert (store : List EmailLog) (messages : List GmailMsg)
    (tid ue cur : String) (lim : Nat) (h1 : tid ≠ "")
    (h2 : ¬ lim ≤ (get_thread_logs store tid 100).length)
    (h3 : backfillBatch messages
      ((get_thread_logs store tid 100).map (fun l => l.message_id)) tid ue cur ≠ []) :
    get_thread_context store (.ok messages) true tid ue cur lim =
      ⟨formatLogs (pySliceLast (sortByTs ((get_thread_logs store tid 100) ++
          backfillBatch messages
            ((get_thread_logs store tid 100).map (fun l => l.message_id)) tid ue cur)) lim),
        store ++ backfillBatch messages
          ((get_thread_logs store tid 100).map (fun l => l.message_id)) tid ue cur,
        backfillBatch messages
          ((get_thread_logs store tid 100).map (fun l => l.message_id)) tid ue cur,
        backfillBatch messages
          ((get_thread_logs store tid 100).map (fun l => l.message_id)) tid ue cur,
        true, false⟩ := by
  simp [get_thread_context, h1, h2, h3]

theorem ctx_eq_insert_fail (store : List EmailLog) (messages : List GmailMsg)
    (tid ue cur : String) (lim : Nat) (h1 : tid ≠ "")
    (h2 : ¬ lim ≤ (get_thread_logs store tid 100).length)
    (h3 : backfillBatch messages
      ((get_thread_logs store tid 100).map (fun l => l.message_id)) tid ue cur ≠ []) :
    get_thread_context store (.ok messages) false tid ue cur lim =
      ⟨formatLogs (pySliceLast (get_thread_logs store tid 100) lim), store,
        [], backfillBatch messages
          ((get_thread_logs store tid 100).map (fun l => l.message_id)) tid ue cur,
        true, true⟩ := by
  simp [get_thread_context, h1, h2, h3]

theorem ctx_store_eq (store : List EmailLog)
    (tf : Except String (List GmailMsg)) (ok : Bool) (tid ue cur : String)
    (lim : Nat) :
    (get_thread_context store tf ok tid ue cur lim).store =
      store ++ (get_thread_context store tf ok tid ue cur lim).inserted := by
  by_cases h1 : tid = ""
  · subst h1; rw [ctx_eq_empty_tid]; simp
  · by_cases h2 : lim ≤ (get_thread_logs store tid 100).length
    · rw [ctx_eq_sufficient store tf ok tid ue cur lim h1 h2]; simp
    · cases tf with
      | error e => rw [ctx_eq_fetch_error store e ok tid ue cur lim h1 h2]; simp
      | ok messages =>
        by_cases h3 : backfillBatch messages
            ((get_thread_logs store tid 100).map (fun l => l.message_id)) tid ue cur = []
        · rw [ctx_eq_no_new store messages ok tid ue cur lim h1 h2 h3]; simp
        · cases ok with
          | true => rw [ctx_eq_insert store messages tid ue cur lim h1 h2 h3]
          | false => rw [ctx_eq_insert_fail store messages tid ue cur lim h1 h2 h3]; simp

theorem ctx_inserted_current (store : List EmailLog)
    (tf : Except String (List GmailMsg)) (ok : Bool) (tid ue cur : String)
    (lim : Nat) :
    countLogs (get_thread_context store tf ok tid ue cur lim).inserted cur = 0 := by
  by_cases h1 : tid = ""
  · subst h1; rw [ctx_eq_empty_tid]; rfl
  · by_cases h2 : lim ≤ (get_thread_logs store tid 100).length
    · rw [ctx_eq_sufficient store tf ok tid ue cur lim h1 h2]; rfl
    · cases tf with
      | error e => rw [ctx_eq_fetch_error store e ok tid ue cur lim h1 h2]; rfl
      | ok messages =>
        by_cases h3 : backfillBatch messages
            ((get_thread_logs store tid 100).map (fun l => l.message_id)) tid ue cur = []
        · rw [ctx_eq_no_new store messages ok tid ue cur lim h1 h2 h3]; rfl
        · cases ok with
          | true =>
            rw [ctx_eq_insert store messages tid ue cur lim h1 h2 h3]
            exact countLogs_backfillBatch_current _ _ _ _ _
          | false => rw [ctx_eq_insert_fail store messages tid ue cur lim h1 h2 h3]; rfl

theorem ctx_count_current (store : List EmailLog)
    (tf : Except String (List GmailMsg)) (ok : Bool) (tid ue cur : String)
    (lim : Nat) :
    countLogs (get_thread_context store tf ok tid ue cur lim).store cur =
      countLogs store cur := by
  rw [ctx_store_eq, countLogs_append, ctx_inserted_current, Nat.add_zero]

theorem pySliceLast_nil (n : Nat) : pySliceLast [] n = [] := by
  simp [pySliceLast]

theorem formatLogs_nil : formatLogs [] = "No previous context available." := rfl

/-- C1: the Deduplication Tracker's eviction is broken.  At `max_size = 2`,
after `mark_processed` on the three distinct identifiers "a", "b", "c" the
claim (and the deduplicator's own cleanup comment, `# Remove oldest entries`)
require the single oldest identifier "a" to be evicted from both structures,
leaving `is_duplicate` true exactly on \x7b"b","c"\x7d with set and queue in
lock-step.  Instead the `deque(maxlen=2)` silently dropped "a" on the third
append before the cleanup loop ran, so the loop pops "b" — a live, unrelated
entry — from the set, "a" stays a reported duplicate forever, and the queue
(1 entry) falls out of lock-step with the set (2 entries). -/
theorem C1_dedup_eviction_divergence :
    (((((EmailDeduplicator.init 2).mark_processed "a").1.mark_processed
        "b").1.mark_processed "c").1.is_duplicate "a" = true) ∧
    (((((EmailDeduplicator.init 2).mark_processed "a").1.mark_processed
        "b").1.mark_processed "c").1.is_duplicate "b" = false) ∧
    (((((EmailDeduplicator.init 2).mark_processed "a").1.mark_processed
        "b").1.mark_processed "c").1.is_duplicate "c" = true) ∧
    (((((EmailDeduplicator.init 2).mark_processed "a").1.mark_processed
        "b").1.mark_processed "c").1.seen_ids = ["a", "c"]) ∧
    (((((EmailDeduplicator.init 2).mark_processed "a").1.mark_processed
        "b").1.mark_processed "c").1.recent_ids = ["c"]) := by
  decide

/-- C5: context sufficiency short-circuit.  Whenever the persisted logs read
for the thread (`get_thread_logs _ _ 100`, spec §4.3 step 1) number at least
the requested depth (`context_depth`, a positive integer per spec §3) and the
`thread_id` is nonempty (so the read happens at all), the assembler performs
no provider thread fetch, attempts no backfill write, leaves the store
unchanged, and returns the formatted most recent `depth` entries of the
persisted set. -/
theorem C5_context_sufficiency_short_circuit
    (store : List EmailLog) (tf : Except String (List GmailMsg)) (ok : Bool)
    (tid ue cur : String) (lim : Nat) (hpos : 1 ≤ lim) (htid : tid ≠ "")
    (hsuff : lim ≤ (get_thread_logs store tid 100).length) :
    (get_thread_context store tf ok tid ue cur lim).fetched = false ∧
    (get_thread_context store tf ok tid ue cur lim).inserted = [] ∧
    (get_thread_context store tf ok tid ue cur lim).attempted = [] ∧
    (get_thread_context store tf ok tid ue cur lim).store = store ∧
    (get_thread_context store tf ok tid ue cur lim).output =
      formatLogs ((get_thread_logs store tid 100).drop
        ((get_thread_logs store tid 100).length - lim)) := by
  rw [ctx_eq_sufficient store tf ok tid ue cur lim htid hsuff]
  refine ⟨rfl, rfl, rfl, rfl, ?_⟩
  have h0 : lim ≠ 0 := by omega
  simp [pySliceLast, h0]

/-- C5 witness: one persisted log in thread "T" and depth 1 — no fetch, no
write, and the output is that log formatted. -/
theorem C5_context_sufficiency_short_circuit_witness :
    (get_thread_context [fixLogA] (.ok fixMsgs) true "T" "u" "X" 1).fetched = false ∧
    (get_thread_context [fixLogA] (.ok fixMsgs) true "T" "u" "X" 1).inserted = [] ∧
    (get_thread_context [fixLogA] (.ok fixMsgs) true "T" "u" "X" 1).attempted = [] ∧
    (get_thread_context [fixLogA] (.ok fixMsgs) true "T" "u" "X" 1).store = [fixLogA] ∧
    (get_thread_context [fixLogA] (.ok fixMsgs) true "T" "u" "X" 1).output =
      formatLogs ((get_thread_logs [fixLogA] "T" 100).drop
        ((get_thread_logs [fixLogA] "T" 100).length - 1)) :=
  C5_context_sufficiency_short_circuit [fixLogA] (.ok fixMsgs) true "T" "u" "X" 1
    (by decide) (by decide) (by decide)

/-- C6 counterexample: a call whose merged set is empty (empty store, no
backfill) but whose `thread_id` is the empty string returns the empty string,
not the "no history" sentinel — the guard `if not thread_id: return ""` runs
before any formatting. -/
theorem C6_counterexample :
    (get_thread_context [] (.ok []) true "" "u" "m" 10).output = "" ∧
    (get_thread_context [] (.ok []) true "" "u" "m" 10).inserted = [] ∧
    (get_thread_context [] (.ok []) true "" "u" "m" 10).store = [] ∧
    "" ≠ "No previous context available." := by
  refine ⟨rfl, rfl, rfl, by decide⟩

/-- C6 (amended): for every call with a NONEMPTY `thread_id` whose merged set
is empty (no persisted logs for the thread and no backfill written), the
returned context is the fixed "no history" sentinel, never the empty string;
for an empty `thread_id`, however, the function returns the empty string. -/
theorem C6_empty_context_sentinel
    (store : List EmailLog) (tf : Except String (List GmailMsg)) (ok : Bool)
    (tid ue cur : String) (lim : Nat) :
    (tid ≠ "" → get_thread_logs store tid 100 = [] →
      (get_thread_context store tf ok tid ue cur lim).inserted = [] →
      (get_thread_context store tf ok tid ue cur lim).output =
        "No previous context available.") ∧
    (tid = "" → (get_thread_context store tf ok tid ue cur lim).output = "") := by
  constructor
  · intro htid hlogs hins
    by_cases h2 : lim ≤ (get_thread_logs store tid 100).length
    · rw [ctx_eq_sufficient store tf ok tid ue cur lim htid h2, hlogs,
        pySliceLast_nil, formatLogs_nil]
    · cases tf with
      | error e =>
        rw [ctx_eq_fetch_error store e ok tid ue cur lim htid h2, hlogs,
          pySliceLast_nil, formatLogs_nil]
      | ok messages =>
        by_cases h3 : backfillBatch messages
            ((get_thread_logs store tid 100).map (fun l => l.message_id)) tid ue cur = []
        · rw [ctx_eq_no_new store messages ok tid ue cur lim htid h2 h3, hlogs,
            pySliceLast_nil, formatLogs_nil]
        · cases ok with
          | true =>
            rw [ctx_eq_insert store messages tid ue cur lim htid h2 h3] at hins
            exact absurd hins h3
          | false =>
            rw [ctx_eq_insert_fail store messages tid ue cur lim htid h2 h3, hlogs,
              pySliceLast_nil, formatLogs_nil]
  · intro htid
    subst htid
    rw [ctx_eq_empty_tid]

/-- C6 witness: nonempty thread id, empty store, provider thread empty — the
sentinel comes back; and the empty-thread-id branch returns "". -/
theorem C6_empty_context_sentinel_witness :
    (get_thread_context [] (.ok []) true "T" "u" "m" 10).output =
      "No previous context available." ∧
    (get_thread_context [] (.ok []) true "" "u" "m" 10).output = "" :=
  ⟨(C6_empty_context_sentinel [] (.ok []) true "T" "u" "m" 10).1
      (by decide) (by decide) (by decide),
    (C6_empty_context_sentinel [] (.ok []) true "" "u" "m" 10).2 rfl⟩

/-- C7: failure containment.  If the provider thread fetch raises, the error
is caught (`caught = true`), nothing is written, and the call still returns
the formatted most recent `depth` entries of the already-persisted set
(`formatLogs []` being the no-history sentinel when that set is empty); if
instead the backfill batch write raises, the persisted set is likewise
returned unchanged and nothing is durably inserted.  The embedding of
`get_thread_context` is a total function into `CtxResult`, so no error
propagates to the caller. -/
theorem C7_failure_containment
    (store : List EmailLog) (e : String) (ok : Bool) (messages : List GmailMsg)
    (tid ue cur : String) (lim : Nat) (htid : tid ≠ "")
    (hfetch : ¬ lim ≤ (get_thread_logs store tid 100).length) :
    (get_thread_context store (.error e) ok tid ue cur lim =
      ⟨formatLogs (pySliceLast (get_thread_logs store tid 100) lim), store,
        [], [], true, true⟩) ∧
    ((get_thread_context store (.ok messages) false tid ue cur lim).output =
        formatLogs (pySliceLast (get_thread_logs store tid 100) lim) ∧
      (get_thread_context store (.ok messages) false tid ue cur lim).store = store ∧
      (get_thread_context store (.ok messages) false tid ue cur lim).inserted = []) := by
  refine ⟨ctx_eq_fetch_error store e ok tid ue cur lim htid hfetch, ?_⟩
  by_cases h3 : backfillBatch messages
      ((get_thread_logs store tid 100).map (fun l => l.message_id)) tid ue cur = []
  · rw [ctx_eq_no_new store messages false tid ue cur lim htid hfetch h3]
    exact ⟨rfl, rfl, rfl⟩
  · rw [ctx_eq_insert_fail store messages tid ue cur lim htid hfetch h3]
    exact ⟨rfl, rfl, rfl⟩

/-- C7 witness: with one persisted log and depth 10, a failing fetch returns
that log formatted and stores nothing; so does a failing backfill write. -/
theorem C7_failure_containment_witness :
    (get_thread_context [fixLogA] (.error "boom") true "T" "u" "X" 10 =
      ⟨formatLogs (pySliceLast (get_thread_logs [fixLogA] "T" 100) 10), [fixLogA],
        [], [], true, true⟩) ∧
    ((get_thread_context [fixLogA] (.ok fixMsgs) false "T" "u" "X" 10).output =
        formatLogs (pySliceLast (get_thread_logs [fixLogA] "T" 100) 10) ∧
      (get_thread_context [fixLogA] (.ok fixMsgs) false "T" "u" "X" 10).store = [fixLogA] ∧
      (get_thread_context [fixLogA] (.ok fixMsgs) false "T" "u" "X" 10).inserted = []) :=
  C7_failure_containment [fixLogA] "boom" true fixMsgs "T" "u" "X" 10
    (by decide) (by decide)

theorem backfillBatch_ids (messages : List GmailMsg) (ids : List String)
    (tid ue cur : String) :
    (backfillBatch messages ids tid ue cur).map (fun l => l.message_id) =
      (messages.filter (fun m => decide ¬(m.id = cur ∨ m.id ∈ ids))).map
        (fun m => m.id) := by
  induction messages with
  | nil => rfl
  | cons msg rest ih =>
    by_cases h : msg.id = cur ∨ msg.id ∈ ids
    · have h2 : ¬(¬msg.id = cur ∧ msg.id ∉ ids) := by tauto
      simpa [backfillBatch, List.filterMap_cons, List.filter_cons, h, h2] using ih
    · have h2 : ¬msg.id = cur ∧ msg.id ∉ ids := by tauto
      simpa [backfillBatch, List.filterMap_cons, List.filter_cons, h, h2,
        backfillLog, emailLogOfKwargs] using ih

set_option maxRecDepth 4000 in
/-- C4: the backfill-and-merge algorithm itself behaves as claimed on the
spec's concrete scenario (persisted A@60s and C@180s, provider thread
A,B,C,D at 60..240s, current message "X", depth 10): exactly the two
qualifying messages B and D are synthesized, each with the tagged snippet
summary, persisted by the one batch write, and the final formatted context
lists the four entries in ascending timestamp order.  But the claim's
`ai_provider = "system-backfill"` part fails in the code:
`common/models.py`'s `EmailLog` declares no `ai_provider` field, so
pydantic v1's `Extra.ignore` silently drops the keyword passed at
`context_engine.py` — the synthesized backfill log is identical whatever
`ai_provider` value is passed (first conjunct), so neither the object nor
the persisted document ever carries the reserved sentinel. -/
theorem C4_backfill_sentinel_dropped :
    (∀ p : String,
      emailLogOfKwargs "u" "B" "T" "bob" "No Subject" "[Backfilled] snipB" p
          (mkRat 120000 1000) =
        backfillLog "T" "u" ⟨"B", [⟨"From", "bob"⟩], "snipB", 120000⟩) ∧
    ((get_thread_context [fixLogA, fixLogC] (.ok fixMsgs) true "T" "u" "X" 10).inserted.map
        (fun l => l.message_id) = ["B", "D"]) ∧
    ((get_thread_context [fixLogA, fixLogC] (.ok fixMsgs) true "T" "u" "X" 10).inserted.map
        (fun l => l.summary) = ["[Backfilled] snipB", "[Backfilled] snipD"]) ∧
    ((get_thread_context [fixLogA, fixLogC] (.ok fixMsgs) true "T" "u" "X" 10).store =
      [fixLogA, fixLogC] ++
        (get_thread_context [fixLogA, fixLogC] (.ok fixMsgs) true "T" "u" "X" 10).inserted) ∧
    ((get_thread_context [fixLogA, fixLogC] (.ok fixMsgs) true "T" "u" "X" 10).output =
      "[1970-01-01 00:01] alice said: sumA\n[1970-01-01 00:02] bob said: [Backfilled] snipB\n[1970-01-01 00:03] carol said: sumC\n[1970-01-01 00:04] dave said: [Backfilled] snipD") := by
  refine ⟨fun p => rfl, ?_, ?_, ?_, ?_⟩ <;> decide

theorem not_summaryWrite_eff0 (b c : Bool) (batch : List EmailLog) (lg : EmailLog) :
    Effect.summaryWrite lg ∉
      ((if b then [Effect.threadFetch] else []) ++
        (if c then [] else [Effect.backfillWrite batch])) := by
  cases b <;> cases c <;> simp

theorem not_aiCall_eff0 (b c : Bool) (batch : List EmailLog) :
    Effect.aiCall ∉
      ((if b then [Effect.threadFetch] else []) ++
        (if c then [] else [Effect.backfillWrite batch])) := by
  cases b <;> cases c <;> simp

theorem summaryWriteLast_of_none (l : List Effect)
    (h : ∀ x, Effect.summaryWrite x ∉ l) : summaryWriteLast l = true := by
  induction l with
  | nil => rfl
  | cons e rest ih =>
    cases e with
    | summaryWrite lg => exact absurd (List.mem_cons_self _ _) (h lg)
    | threadFetch =>
      exact ih (fun lg hm => h lg (List.mem_cons_of_mem _ hm))
    | backfillWrite b =>
      exact ih (fun lg hm => h lg (List.mem_cons_of_mem _ hm))
    | aiCall =>
      exact ih (fun lg hm => h lg (List.mem_cons_of_mem _ hm))

theorem summaryWriteLast_append_single (l : List Effect) (lg : EmailLog)
    (h : ∀ x, Effect.summaryWrite x ∉ l) :
    summaryWriteLast (l ++ [Effect.summaryWrite lg]) = true := by
  induction l with
  | nil => rfl
  | cons e rest ih =>
    cases e with
    | summaryWrite x => exact absurd (List.mem_cons_self _ _) (h x)
    | threadFetch =>
      exact ih (fun x hm => h x (List.mem_cons_of_mem _ hm))
    | backfillWrite b =>
      exact ih (fun x hm => h x (List.mem_cons_of_mem _ hm))
    | aiCall =>
      exact ih (fun x hm => h x (List.mem_cons_of_mem _ hm))

theorem pe_user_none (email : String) (env : Env) (s : PState)
    (h : env.user = none) : process_event email env s = (s, []) := by
  simp [process_event, h]

theorem pe_inactive (email : String) (env : Env) (s : PState) (user : UserRec)
    (hu : env.user = some user) (h : user.is_active = false) :
    process_event email env s = (s, []) := by
  simp [process_event, hu, h]

theorem pe_nocreds (email : String) (env : Env) (s : PState) (user : UserRec)
    (hu : env.user = some user) (hact : user.is_active = true)
    (h : env.credsOk = false) : process_event email env s = (s, []) := by
  simp [process_event, hu, hact, h]

theorem pe_nolist (email : String) (env : Env) (s : PState) (user : UserRec)
    (hu : env.user = some user) (hact : user.is_active = true)
    (hc : env.credsOk = true) (h : env.listedMsg = none) :
    process_event email env s = (s, []) := by
  simp [process_event, hu, hact, hc, h]

theorem pe_age (email : String) (env : Env) (s : PState) (user : UserRec)
    (mref : MsgRef) (hu : env.user = some user) (hact : user.is_active = true)
    (hc : env.credsOk = true) (hl : env.listedMsg = some mref)
    (h : ageSkip user.last_started_at (mkRat env.internalDate 1000) = true) :
    process_event email env s = (s, []) := by
  simp [process_event, hu, hact, hc, hl, h]

theorem pe_dup (email : String) (env : Env) (s : PState) (user : UserRec)
    (mref : MsgRef) (hu : env.user = some user) (hact : user.is_active = true)
    (hc : env.credsOk = true) (hl : env.listedMsg = some mref)
    (hage : ageSkip user.last_started_at (mkRat env.internalDate 1000) = false)
    (h : (s.history.contains mref.id ||
      (get_email_log_by_message_id s.store mref.id).isSome) = true) :
    process_event email env s =
      ({ s with history := dequeAppend s.history mref.id s.historyMax }, []) := by
  have h' : mref.id ∈ s.history ∨
      (get_email_log_by_message_id s.store mref.id).isSome = true := by
    simpa using h
  simp [process_event, hu, hact, hc, hl, hage, h']

theorem pe_draft (email : String) (env : Env) (s : PState) (user : UserRec)
    (mref : MsgRef) (hu : env.user = some user) (hact : user.is_active = true)
    (hc : env.credsOk = true) (hl : env.listedMsg = some mref)
    (hage : ageSkip user.last_started_at (mkRat env.internalDate 1000) = false)
    (hdup : (s.history.contains mref.id ||
      (get_email_log_by_message_id s.store mref.id).isSome) = false)
    (h : env.labelIds.contains "DRAFT" = true) :
    process_event email env s = (s, []) := by
  have h1 : mref.id ∉ s.history ∧
      (get_email_log_by_message_id s.store mref.id).isSome = false := by
    simpa using hdup
  have h2 : "DRAFT" ∈ env.labelIds := by simpa using h
  simp [process_event, hu, hact, hc, hl, hage, h1.1, h1.2, h2]

theorem pe_core_eq (email : String) (env : Env) (s : PState) (user : UserRec)
    (mref : MsgRef) (hu : env.user = some user) (hact : user.is_active = true)
    (hc : env.credsOk = true) (hl : env.listedMsg = some mref)
    (hage : ageSkip user.last_started_at (mkRat env.internalDate 1000) = false)
    (hdup : (s.history.contains mref.id ||
      (get_email_log_by_message_id s.store mref.id).isSome) = false)
    (hdraft : env.labelIds.contains "DRAFT" = false) :
    process_event email env s = process_core email env s user mref := by
  have h1 : mref.id ∉ s.history ∧
      (get_email_log_by_message_id s.store mref.id).isSome = false := by
    simpa using hdup
  have h2 : "DRAFT" ∉ env.labelIds := by simpa using hdraft
  simp [process_event, hu, hact, hc, hl, hage, h1.1, h1.2, h2]

theorem not_summaryWrite_eff0_ai (b c : Bool) (batch : List EmailLog) (lg : EmailLog) :
    Effect.summaryWrite lg ∉
      (((if b then [Effect.threadFetch] else []) ++
        (if c then [] else [Effect.backfillWrite batch])) ++ [Effect.aiCall]) := by
  cases b <;> cases c <;> simp

theorem core_summaryWriteLast (email : String) (env : Env) (s : PState)
    (user : UserRec) (mref : MsgRef) :
    summaryWriteLast (process_core email env s user mref).2 = true := by
  simp only [process_core]
  cases hb : PromptBuilder.build env.promptTemplate
      (get_thread_context s.store env.threadFetch env.backfillInsertOk
        mref.threadId email mref.id user.context_depth).output env.snippet with
  | error e =>
    exact summaryWriteLast_of_none _ (fun x => not_summaryWrite_eff0 _ _ _ x)
  | ok p =>
    cases hs : AIFactory.get_service user.ai_provider env.geminiInit env.openaiInit with
    | error e =>
      cases hins : env.logInsertOk with
      | true =>
        simp only [hins, if_true]
        exact summaryWriteLast_append_single _ _ (fun x => not_summaryWrite_eff0 _ _ _ x)
      | false =>
        simp only [hins, if_false]
        exact summaryWriteLast_of_none _ (fun x => not_summaryWrite_eff0 _ _ _ x)
    | ok u =>
      cases hins : env.logInsertOk with
      | true =>
        simp only [hins, if_true]
        exact summaryWriteLast_append_single _ _ (fun x => not_summaryWrite_eff0_ai _ _ _ x)
      | false =>
        simp only [hins, if_false]
        exact summaryWriteLast_of_none _ (fun x => not_summaryWrite_eff0_ai _ _ _ x)

theorem core_summaryWrite (email : String) (env : Env) (s : PState)
    (user : UserRec) (mref : MsgRef) (lg : EmailLog)
    (h : Effect.summaryWrite lg ∈ (process_core email env s user mref).2) :
    env.logInsertOk = true ∧
    lg.message_id = mref.id ∧
    lg.direction = (if env.labelIds.contains "SENT" then "outbound" else "inbound") ∧
    (∀ e, AIFactory.get_service user.ai_provider env.geminiInit env.openaiInit =
      .error e → lg.summary = "[AI ERROR]: " ++ e) ∧
    (process_core email env s user mref).1.store =
      (get_thread_context s.store env.threadFetch env.backfillInsertOk
        mref.threadId email mref.id user.context_depth).store ++ [lg] := by
  simp only [process_core] at h ⊢
  cases hb : PromptBuilder.build env.promptTemplate
      (get_thread_context s.store env.threadFetch env.backfillInsertOk
        mref.threadId email mref.id user.context_depth).output env.snippet with
  | error e =>
    rw [hb] at h
    exact absurd h (not_summaryWrite_eff0 _ _ _ lg)
  | ok p =>
    rw [hb] at h
    cases hs : AIFactory.get_service user.ai_provider env.geminiInit env.openaiInit with
    | error e =>
      rw [hs] at h
      cases hins : env.logInsertOk with
      | true =>
        rw [hins] at h
        rcases List.mem_append.mp h with hin | hin
        · exact absurd hin (not_summaryWrite_eff0 _ _ _ lg)
        · simp only [List.mem_singleton, Effect.summaryWrite.injEq] at hin
          subst hin
          refine ⟨rfl, rfl, rfl, ?_, rfl⟩
          intro e2 he2
          cases he2
          rfl
      | false =>
        rw [hins] at h
        exact absurd h (not_summaryWrite_eff0 _ _ _ lg)
    | ok u =>
      rw [hs] at h
      cases hins : env.logInsertOk with
      | true =>
        rw [hins] at h
        rcases List.mem_append.mp h with hin | hin
        · exact absurd hin (not_summaryWrite_eff0_ai _ _ _ lg)
        · simp only [List.mem_singleton, Effect.summaryWrite.injEq] at hin
          subst hin
          refine ⟨rfl, rfl, rfl, ?_, rfl⟩
          intro e2 he2
          exact absurd he2 (by simp)
      | false =>
        rw [hins] at h
        exact absurd h (not_summaryWrite_eff0_ai _ _ _ lg)

theorem pe_effect_cases (email : String) (env : Env) (s : PState) (e : Effect)
    (h : e ∈ (process_event email env s).2) :
    ∃ user mref, env.user = some user ∧ user.is_active = true ∧
      env.credsOk = true ∧ env.listedMsg = some mref ∧
      ageSkip user.last_started_at (mkRat env.internalDate 1000) = false ∧
      s.history.contains mref.id = false ∧
      (get_email_log_by_message_id s.store mref.id).isSome = false ∧
      env.labelIds.contains "DRAFT" = false ∧
      e ∈ (process_core email env s user mref).2 := by
  rcases hu : env.user with _ | user
  · rw [pe_user_none email env s hu] at h
    simp at h
  · cases hact : user.is_active with
    | false =>
      rw [pe_inactive email env s user hu hact] at h
      simp at h
    | true =>
      cases hc : env.credsOk with
      | false =>
        rw [pe_nocreds email env s user hu hact hc] at h
        simp at h
      | true =>
        rcases hl : env.listedMsg with _ | mref
        · rw [pe_nolist email env s user hu hact hc hl] at h
          simp at h
        · cases hage : ageSkip user.last_started_at (mkRat env.internalDate 1000) with
          | true =>
            rw [pe_age email env s user mref hu hact hc hl hage] at h
            simp at h
          | false =>
            cases hdup : (s.history.contains mref.id ||
                (get_email_log_by_message_id s.store mref.id).isSome) with
            | true =>
              rw [pe_dup email env s user mref hu hact hc hl hage hdup] at h
              simp at h
            | false =>
              have hdup2 : s.history.contains mref.id = false ∧
                  (get_email_log_by_message_id s.store mref.id).isSome = false := by
                constructor
                · exact (Bool.or_eq_false_iff.mp hdup).1
                · exact (Bool.or_eq_false_iff.mp hdup).2
              cases hdraft : env.labelIds.contains "DRAFT" with
              | true =>
                rw [pe_draft email env s user mref hu hact hc hl hage hdup hdraft] at h
                simp at h
              | false =>
                rw [pe_core_eq email env s user mref hu hact hc hl hage hdup hdraft] at h
                exact ⟨user, mref, rfl, hact, rfl, rfl, hage, hdup2.1, hdup2.2, rfl, h⟩

theorem ctx_attempted_inbound (store : List EmailLog)
    (tf : Except String (List GmailMsg)) (ok : Bool) (tid ue cur : String)
    (lim : Nat) :
    ∀ l ∈ (get_thread_context store tf ok tid ue cur lim).attempted,
      l.direction = "inbound" := by
  intro l hl
  by_cases h1 : tid = ""
  · subst h1; rw [ctx_eq_empty_tid] at hl; simp at hl
  · by_cases h2 : lim ≤ (get_thread_logs store tid 100).length
    · rw [ctx_eq_sufficient store tf ok tid ue cur lim h1 h2] at hl
      simp at hl
    · cases tf with
      | error e =>
        rw [ctx_eq_fetch_error store e ok tid ue cur lim h1 h2] at hl
        simp at hl
      | ok messages =>
        by_cases h3 : backfillBatch messages
            ((get_thread_logs store tid 100).map (fun l => l.message_id)) tid ue cur = []
        · rw [ctx_eq_no_new store messages ok tid ue cur lim h1 h2 h3] at hl
          simp at hl
        · have hmem : l ∈ backfillBatch messages
              ((get_thread_logs store tid 100).map (fun l => l.message_id)) tid ue cur := by
            cases ok with
            | true =>
              rw [ctx_eq_insert store messages tid ue cur lim h1 h2 h3] at hl
              exact hl
            | false =>
              rw [ctx_eq_insert_fail store messages tid ue cur lim h1 h2 h3] at hl
              exact hl
          rw [mem_backfillBatch] at hmem
          obtain ⟨msg, _, _, rfl⟩ := hmem
          rfl

theorem ctx_inserted_inbound (store : List EmailLog)
    (tf : Except String (List GmailMsg)) (ok : Bool) (tid ue cur : String)
    (lim : Nat) :
    ∀ l ∈ (get_thread_context store tf ok tid ue cur lim).inserted,
      l.direction = "inbound" := by
  intro l hl
  by_cases h1 : tid = ""
  · subst h1; rw [ctx_eq_empty_tid] at hl; simp at hl
  · by_cases h2 : lim ≤ (get_thread_logs store tid 100).length
    · rw [ctx_eq_sufficient store tf ok tid ue cur lim h1 h2] at hl
      simp at hl
    · cases tf with
      | error e =>
        rw [ctx_eq_fetch_error store e ok tid ue cur lim h1 h2] at hl
        simp at hl
      | ok messages =>
        by_cases h3 : backfillBatch messages
            ((get_thread_logs store tid 100).map (fun l => l.message_id)) tid ue cur = []
        · rw [ctx_eq_no_new store messages ok tid ue cur lim h1 h2 h3] at hl
          simp at hl
        · cases ok with
          | true =>
            rw [ctx_eq_insert store messages tid ue cur lim h1 h2 h3] at hl
            rw [mem_backfillBatch] at hl
            obtain ⟨msg, _, _, rfl⟩ := hl
            rfl
          | false =>
            rw [ctx_eq_insert_fail store messages tid ue cur lim h1 h2 h3] at hl
            simp at hl

/-- C10: every backfill EmailLog synthesized by the Context Assembler carries
`direction = "inbound"` — the pydantic default, since `context_engine.py`
constructs its `EmailLog` without passing `direction` — regardless of the
backfilled message's labels or actual direction; only the orchestrator's
summary log derives `direction` from the message's SENT label. -/
theorem C10_backfill_direction_inbound (store : List EmailLog)
    (tf : Except String (List GmailMsg)) (ok : Bool) (tid ue cur : String)
    (lim : Nat) (email : String) (env : Env) (s : PState) :
    (∀ l ∈ (get_thread_context store tf ok tid ue cur lim).attempted,
      l.direction = "inbound") ∧
    (∀ l ∈ (get_thread_context store tf ok tid ue cur lim).inserted,
      l.direction = "inbound") ∧
    (∀ lg, Effect.summaryWrite lg ∈ (process_event email env s).2 →
      lg.direction =
        (if env.labelIds.contains "SENT" then "outbound" else "inbound")) := by
  refine ⟨ctx_attempted_inbound store tf ok tid ue cur lim,
    ctx_inserted_inbound store tf ok tid ue cur lim, ?_⟩
  intro lg hlg
  obtain ⟨user, mref, _, _, _, _, _, _, _, _, hcore⟩ :=
    pe_effect_cases email env s (Effect.summaryWrite lg) hlg
  exact (core_summaryWrite email env s user mref lg hcore).2.2.1

/-- C10 witness: a backfill written for message B of the concrete scenario is
inbound, and the summary log written by the `fixEnvFoo` run (no SENT label)
is inbound. -/
theorem C10_backfill_direction_inbound_witness :
    (∀ l ∈ (get_thread_context [fixLogA, fixLogC] (.ok fixMsgs) true
        "T" "u" "X" 10).inserted, l.direction = "inbound") ∧
    (∀ lg, Effect.summaryWrite lg ∈ (process_event "u@x" fixEnvFoo fixState0).2 →
      lg.direction =
        (if fixEnvFoo.labelIds.contains "SENT" then "outbound" else "inbound")) :=
  ⟨(C10_backfill_direction_inbound [fixLogA, fixLogC] (.ok fixMsgs) true
      "T" "u" "X" 10 "u@x" fixEnvFoo fixState0).2.1,
    (C10_backfill_direction_inbound [fixLogA, fixLogC] (.ok fixMsgs) true
      "T" "u" "X" 10 "u@x" fixEnvFoo fixState0).2.2⟩

theorem forall_of_countLogs_eq_zero (l : List EmailLog) (m : String)
    (h : countLogs l m = 0) : ∀ x ∈ l, x.message_id ≠ m := by
  simp only [countLogs, List.length_eq_zero, List.filter_eq_nil_iff] at h
  intro x hx
  simpa using h x hx

theorem core_count (email : String) (env : Env) (s : PState) (user : UserRec)
    (mref : MsgRef) (m : String) (hm : mref.id = m)
    (hnone : (get_email_log_by_message_id s.store mref.id).isSome = false) :
    countLogs (process_core email env s user mref).1.store m ≤ 1 := by
  subst hm
  have hz : countLogs s.store mref.id = 0 :=
    (countLogs_eq_zero_iff s.store mref.id).mpr
      (Option.not_isSome_iff_eq_none.mp (by simp [hnone]))
  have hctx : countLogs (get_thread_context s.store env.threadFetch
      env.backfillInsertOk mref.threadId email mref.id user.context_depth).store
      mref.id = 0 := by
    rw [ctx_count_current]; exact hz
  simp only [process_core]
  cases hb : PromptBuilder.build env.promptTemplate
      (get_thread_context s.store env.threadFetch env.backfillInsertOk
        mref.threadId email mref.id user.context_depth).output env.snippet with
  | error e => simp [hctx]
  | ok p =>
    cases hins : env.logInsertOk with
    | true =>
      simp [countLogs_append, hctx, countLogs, emailLogOfKwargs]
      exact fun a ha => forall_of_countLogs_eq_zero _ _ hctx a ha
    | false => simp [hctx]

theorem pe_count_step (email : String) (env : Env) (s : PState) (m : String)
    (hlist : ∀ r, env.listedMsg = some r → r.id = m)
    (hc : countLogs s.store m ≤ 1) :
    countLogs (process_event email env s).1.store m ≤ 1 := by
  rcases hu : env.user with _ | user
  · rw [pe_user_none email env s hu]; exact hc
  · cases hact : user.is_active with
    | false => rw [pe_inactive email env s user hu hact]; exact hc
    | true =>
      cases hcreds : env.credsOk with
      | false => rw [pe_nocreds email env s user hu hact hcreds]; exact hc
      | true =>
        rcases hl : env.listedMsg with _ | mref
        · rw [pe_nolist email env s user hu hact hcreds hl]; exact hc
        · cases hage : ageSkip user.last_started_at (mkRat env.internalDate 1000) with
          | true => rw [pe_age email env s user mref hu hact hcreds hl hage]; exact hc
          | false =>
            cases hdup : (s.history.contains mref.id ||
                (get_email_log_by_message_id s.store mref.id).isSome) with
            | true =>
              rw [pe_dup email env s user mref hu hact hcreds hl hage hdup]
              exact hc
            | false =>
              cases hdraft : env.labelIds.contains "DRAFT" with
              | true =>
                rw [pe_draft email env s user mref hu hact hcreds hl hage hdup hdraft]
                exact hc
              | false =>
                rw [pe_core_eq email env s user mref hu hact hcreds hl hage hdup hdraft]
                exact core_count email env s user mref m (hlist mref hl)
                  (Bool.or_eq_false_iff.mp hdup).2

theorem pe_count_run (email : String) (envs : List Env) (s : PState) (m : String)
    (hlist : ∀ env ∈ envs, ∀ r, env.listedMsg = some r → r.id = m)
    (hc : countLogs s.store m ≤ 1) :
    countLogs (runEvents email envs s).store m ≤ 1 := by
  induction envs generalizing s with
  | nil => exact hc
  | cons env rest ih =>
    have hstep := pe_count_step email env s m
      (hlist env (List.mem_cons_self _ _)) hc
    exact ih (process_event email env s).1
      (fun e he r hr => hlist e (List.mem_cons_of_mem _ he) r hr) hstep

theorem epe_user_none (email : String) (env : EPEnv) (s : EPState)
    (h : env.user = none) : process_email_event email env s = (s, []) := by
  simp [process_email_event, h]

theorem epe_inactive (email : String) (env : EPEnv) (s : EPState) (user : UserRec)
    (hu : env.user = some user) (h : user.is_active = false) :
    process_email_event email env s = (s, []) := by
  simp [process_email_event, hu, h]

theorem epe_nocreds (email : String) (env : EPEnv) (s : EPState) (user : UserRec)
    (hu : env.user = some user) (hact : user.is_active = true)
    (h : env.credsOk = false) : process_email_event email env s = (s, []) := by
  simp [process_email_event, hu, hact, h]

theorem epe_nolist (email : String) (env : EPEnv) (s : EPState) (user : UserRec)
    (hu : env.user = some user) (hact : user.is_active = true)
    (hc : env.credsOk = true) (h : env.listedMsg = none) :
    process_email_event email env s = (s, []) := by
  simp [process_email_event, hu, hact, hc, h]

theorem epe_age (email : String) (env : EPEnv) (s : EPState) (user : UserRec)
    (mref : MsgRef) (hu : env.user = some user) (hact : user.is_active = true)
    (hc : env.credsOk = true) (hl : env.listedMsg = some mref)
    (h : validate_email_age (mkRat env.internalDate 1000) user.last_started_at = false) :
    process_email_event email env s = (s, []) := by
  simp [process_email_event, hu, hact, hc, hl, h]

theorem epe_dup (email : String) (env : EPEnv) (s : EPState) (user : UserRec)
    (mref : MsgRef) (hu : env.user = some user) (hact : user.is_active = true)
    (hc : env.credsOk = true) (hl : env.listedMsg = some mref)
    (hage : validate_email_age (mkRat env.internalDate 1000) user.last_started_at = true)
    (h : validate_not_duplicate s.store mref.id = false) :
    process_email_event email env s =
      ({ s with dedup := (s.dedup.mark_processed mref.id).1 }, []) := by
  simp [process_email_event, hu, hact, hc, hl, hage, h]

theorem epe_parse_none (email : String) (env : EPEnv) (s : EPState) (user : UserRec)
    (mref : MsgRef) (hu : env.user = some user) (hact : user.is_active = true)
    (hc : env.credsOk = true) (hl : env.listedMsg = some mref)
    (hage : validate_email_age (mkRat env.internalDate 1000) user.last_started_at = true)
    (hdup : validate_not_duplicate s.store mref.id = true)
    (h : env.parsed = none) : process_email_event email env s = (s, []) := by
  simp [process_email_event, hu, hact, hc, hl, hage, hdup, h]

theorem epe_draft (email : String) (env : EPEnv) (s : EPState) (user : UserRec)
    (mref : MsgRef) (info : ParsedEmail) (hu : env.user = some user)
    (hact : user.is_active = true) (hc : env.credsOk = true)
    (hl : env.listedMsg = some mref)
    (hage : validate_email_age (mkRat env.internalDate 1000) user.last_started_at = true)
    (hdup : validate_not_duplicate s.store mref.id = true)
    (hp : env.parsed = some info)
    (h : validate_draft_exclusion info.label_ids = false) :
    process_email_event email env s = (s, []) := by
  simp [process_email_event, hu, hact, hc, hl, hage, hdup, hp, h]

theorem epe_core_eq (email : String) (env : EPEnv) (s : EPState) (user : UserRec)
    (mref : MsgRef) (info : ParsedEmail) (hu : env.user = some user)
    (hact : user.is_active = true) (hc : env.credsOk = true)
    (hl : env.listedMsg = some mref)
    (hage : validate_email_age (mkRat env.internalDate 1000) user.last_started_at = true)
    (hdup : validate_not_duplicate s.store mref.id = true)
    (hp : env.parsed = some info)
    (hdraft : validate_draft_exclusion info.label_ids = true) :
    process_email_event email env s = ep_core email env s user mref info := by
  simp [process_email_event, hu, hact, hc, hl, hage, hdup, hp, hdraft]

theorem dedupCleanup_subset (m : Nat) (q : List String) :
    ∀ (seen : List String), ∀ x ∈ (dedupCleanup m seen q).1, x ∈ seen := by
  induction q with
  | nil =>
    intro seen x hx
    by_cases h : seen.length ≤ m <;> simp [dedupCleanup, h] at hx <;> exact hx
  | cons oldest rest ih =>
    intro seen x hx
    by_cases h : seen.length ≤ m
    · simp [dedupCleanup, h] at hx
      exact hx
    · simp only [dedupCleanup, if_neg h] at hx
      exact List.mem_of_mem_erase (ih (seen.erase oldest) x hx)

theorem setAdd_subset (s : List String) (y x : String) (hx : x ∈ setAdd s y) :
    x ∈ s ∨ x = y := by
  by_cases h : y ∈ s
  · simp [setAdd, h] at hx
    exact Or.inl hx
  · simp only [setAdd, if_neg h, List.mem_append, List.mem_singleton] at hx
    exact hx

theorem mark_processed_seen_subset (d : EmailDeduplicator) (mid : String) :
    ∀ x ∈ (d.mark_processed mid).1.seen_ids, x ∈ d.seen_ids ∨ x = mid := by
  intro x hx
  simp only [EmailDeduplicator.mark_processed] at hx
  exact setAdd_subset d.seen_ids mid x (dedupCleanup_subset d.max_size _ _ x hx)

theorem findLog_isSome_mono (a b : List EmailLog) (m : String)
    (h : (get_email_log_by_message_id a m).isSome) :
    (get_email_log_by_message_id (a ++ b) m).isSome := by
  simp only [get_email_log_by_message_id, List.find?_isSome] at h ⊢
  obtain ⟨x, hx, hpx⟩ := h
  exact ⟨x, List.mem_append_left _ hx, hpx⟩

theorem findLog_append_last (l1 : List EmailLog) (lg : EmailLog) (m : String)
    (h : lg.message_id = m) :
    (get_email_log_by_message_id (l1 ++ [lg]) m).isSome := by
  simp only [get_email_log_by_message_id, List.find?_isSome]
  exact ⟨lg, List.mem_append_right _ (List.mem_singleton.mpr rfl), by simp [h]⟩

theorem not_summaryWrite_eff1 (b c d : Bool) (batch : List EmailLog) (lg : EmailLog) :
    Effect.summaryWrite lg ∉
      (((if b then [Effect.threadFetch] else []) ++
        (if c then [] else [Effect.backfillWrite batch])) ++
        (if d then [Effect.aiCall] else [])) := by
  cases b <;> cases c <;> cases d <;> simp

theorem ep_core_summaryWriteLast (email : String) (env : EPEnv) (s : EPState)
    (user : UserRec) (mref : MsgRef) (info : ParsedEmail) :
    summaryWriteLast (ep_core email env s user mref info).2 = true := by
  simp only [ep_core]
  cases hins : env.logInsertOk with
  | true =>
    exact summaryWriteLast_append_single _ _
      (fun x => not_summaryWrite_eff1 _ _ _ _ x)
  | false =>
    exact summaryWriteLast_of_none _ (fun x => not_summaryWrite_eff1 _ _ _ _ x)

theorem ep_core_trackerSound (email : String) (env : EPEnv) (s : EPState)
    (user : UserRec) (mref : MsgRef) (info : ParsedEmail)
    (h : trackerSound s) :
    trackerSound (ep_core email env s user mref info).1 := by
  have hstore : (get_thread_context s.store env.threadFetch env.backfillInsertOk
      mref.threadId email mref.id user.context_depth).store =
        s.store ++ (get_thread_context s.store env.threadFetch env.backfillInsertOk
          mref.threadId email mref.id user.context_depth).inserted :=
    ctx_store_eq s.store env.threadFetch env.backfillInsertOk mref.threadId email
      mref.id user.context_depth
  simp only [ep_core, ContextBuilder.build_context]
  cases hins : env.logInsertOk with
  | true =>
    intro id hid
    rcases mark_processed_seen_subset s.dedup mref.id id hid with hold | rfl
    · have hpers := h id hold
      rw [hstore]
      rw [List.append_assoc]
      exact findLog_isSome_mono s.store _ id hpers
    · exact findLog_append_last _ _ _ rfl
  | false =>
    intro id hid
    have hpers := h id hid
    rw [hstore]
    exact findLog_isSome_mono s.store _ id hpers

theorem ep_core_count (email : String) (env : EPEnv) (s : EPState)
    (user : UserRec) (mref : MsgRef) (info : ParsedEmail) (m : String)
    (hm : mref.id = m)
    (hnone : get_email_log_by_message_id s.store mref.id = none) :
    countLogs (ep_core email env s user mref info).1.store m ≤ 1 := by
  subst hm
  have hz : countLogs s.store mref.id = 0 :=
    (countLogs_eq_zero_iff s.store mref.id).mpr hnone
  have hctx : countLogs (get_thread_context s.store env.threadFetch
      env.backfillInsertOk mref.threadId email mref.id user.context_depth).store
      mref.id = 0 := by
    rw [ctx_count_current]; exact hz
  simp only [ep_core, ContextBuilder.build_context]
  cases hins : env.logInsertOk with
  | true =>
    simp [countLogs_append, hctx, countLogs, emailLogOfKwargs]
    exact fun a ha => forall_of_countLogs_eq_zero _ _ hctx a ha
  | false => simp [hctx]

theorem epe_trackerSound_step (email : String) (env : EPEnv) (s : EPState)
    (h : trackerSound s) :
    trackerSound (process_email_event email env s).1 := by
  rcases hu : env.user with _ | user
  · rw [epe_user_none email env s hu]; exact h
  · cases hact : user.is_active with
    | false => rw [epe_inactive email env s user hu hact]; exact h
    | true =>
      cases hcreds : env.credsOk with
      | false => rw [epe_nocreds email env s user hu hact hcreds]; exact h
      | true =>
        rcases hl : env.listedMsg with _ | mref
        · rw [epe_nolist email env s user hu hact hcreds hl]; exact h
        · cases hage : validate_email_age (mkRat env.internalDate 1000)
              user.last_started_at with
          | false => rw [epe_age email env s user mref hu hact hcreds hl hage]; exact h
          | true =>
            cases hdup : validate_not_duplicate s.store mref.id with
            | false =>
              rw [epe_dup email env s user mref hu hact hcreds hl hage hdup]
              intro id hid
              rcases mark_processed_seen_subset s.dedup mref.id id hid with hold | rfl
              · exact h id hold
              · cases hfind : get_email_log_by_message_id s.store mref.id with
                | none => simp [validate_not_duplicate, hfind] at hdup
                | some v => simp [hfind]
            | true =>
              rcases hp : env.parsed with _ | info
              · rw [epe_parse_none email env s user mref hu hact hcreds hl hage hdup hp]
                exact h
              · cases hdraft : validate_draft_exclusion info.label_ids with
                | false =>
                  rw [epe_draft email env s user mref info hu hact hcreds hl hage
                    hdup hp hdraft]
                  exact h
                | true =>
                  rw [epe_core_eq email env s user mref info hu hact hcreds hl hage
                    hdup hp hdraft]
                  exact ep_core_trackerSound email env s user mref info h

theorem epe_count_step (email : String) (env : EPEnv) (s : EPState) (m : String)
    (hlist : ∀ r, env.listedMsg = some r → r.id = m)
    (hc : countLogs s.store m ≤ 1) :
    countLogs (process_email_event email env s).1.store m ≤ 1 := by
  rcases hu : env.user with _ | user
  · rw [epe_user_none email env s hu]; exact hc
  · cases hact : user.is_active with
    | false => rw [epe_inactive email env s user hu hact]; exact hc
    | true =>
      cases hcreds : env.credsOk with
      | false => rw [epe_nocreds email env s user hu hact hcreds]; exact hc
      | true =>
        rcases hl : env.listedMsg with _ | mref
        · rw [epe_nolist email env s user hu hact hcreds hl]; exact hc
        · cases hage : validate_email_age (mkRat env.internalDate 1000)
              user.last_started_at with
          | false => rw [epe_age email env s user mref hu hact hcreds hl hage]; exact hc
          | true =>
            cases hdup : validate_not_duplicate s.store mref.id with
            | false =>
              rw [epe_dup email env s user mref hu hact hcreds hl hage hdup]
              exact hc
            | true =>
              rcases hp : env.parsed with _ | info
              · rw [epe_parse_none email env s user mref hu hact hcreds hl hage hdup hp]
                exact hc
              · cases hdraft : validate_draft_exclusion info.label_ids with
                | false =>
                  rw [epe_draft email env s user mref info hu hact hcreds hl hage
                    hdup hp hdraft]
                  exact hc
                | true =>
                  rw [epe_core_eq email env s user mref info hu hact hcreds hl hage
                    hdup hp hdraft]
                  have hnone : get_email_log_by_message_id s.store mref.id = none := by
                    cases hfind : get_email_log_by_message_id s.store mref.id with
                    | none => rfl
                    | some v => simp [validate_not_duplicate, hfind] at hdup
                  exact ep_core_count email env s user mref info m (hlist mref hl) hnone

theorem epe_count_run (email : String) (envs : List EPEnv) (s : EPState) (m : String)
    (hlist : ∀ env ∈ envs, ∀ r, env.listedMsg = some r → r.id = m)
    (hc : countLogs s.store m ≤ 1) :
    countLogs (runEmailEvents email envs s).store m ≤ 1 := by
  induction envs generalizing s with
  | nil => exact hc
  | cons env rest ih =>
    exact ih (process_email_event email env s).1
      (fun e he r hr => hlist e (List.mem_cons_of_mem _ he) r hr)
      (epe_count_step email env s m (hlist env (List.mem_cons_self _ _)) hc)

theorem epe_trackerSound_run (email : String) (envs : List EPEnv) (s : EPState)
    (h : trackerSound s) : trackerSound (runEmailEvents email envs s) := by
  induction envs generalizing s with
  | nil => exact h
  | cons env rest ih =>
    exact ih (process_email_event email env s).1 (epe_trackerSound_step email env s h)

theorem epe_gate_or (s : EPState) (m : String) (hts : trackerSound s)
    (hor : (get_email_log_by_message_id s.store m).isSome = true ∨
      m ∈ s.dedup.seen_ids) :
    validate_not_duplicate s.store m = false := by
  have hsome : (get_email_log_by_message_id s.store m).isSome = true := by
    rcases hor with h | h
    · exact h
    · exact hts m h
  cases hfind : get_email_log_by_message_id s.store m with
  | none => rw [hfind] at hsome; simp at hsome
  | some v => simp [validate_not_duplicate, hfind]

theorem epe_effect_cases (email : String) (env : EPEnv) (s : EPState) (e : Effect)
    (h : e ∈ (process_email_event email env s).2) :
    ∃ user mref info, env.user = some user ∧ user.is_active = true ∧
      env.credsOk = true ∧ env.listedMsg = some mref ∧
      validate_email_age (mkRat env.internalDate 1000) user.last_started_at = true ∧
      validate_not_duplicate s.store mref.id = true ∧
      env.parsed = some info ∧
      validate_draft_exclusion info.label_ids = true ∧
      e ∈ (ep_core email env s user mref info).2 := by
  rcases hu : env.user with _ | user
  · rw [epe_user_none email env s hu] at h; simp at h
  · cases hact : user.is_active with
    | false => rw [epe_inactive email env s user hu hact] at h; simp at h
    | true =>
      cases hcreds : env.credsOk with
      | false => rw [epe_nocreds email env s user hu hact hcreds] at h; simp at h
      | true =>
        rcases hl : env.listedMsg with _ | mref
        · rw [epe_nolist email env s user hu hact hcreds hl] at h; simp at h
        · cases hage : validate_email_age (mkRat env.internalDate 1000)
              user.last_started_at with
          | false =>
            rw [epe_age email env s user mref hu hact hcreds hl hage] at h
            simp at h
          | true =>
            cases hdup : validate_not_duplicate s.store mref.id with
            | false =>
              rw [epe_dup email env s user mref hu hact hcreds hl hage hdup] at h
              simp at h
            | true =>
              rcases hp : env.parsed with _ | info
              · rw [epe_parse_none email env s user mref hu hact hcreds hl hage
                  hdup hp] at h
                simp at h
              · cases hdraft : validate_draft_exclusion info.label_ids with
                | false =>
                  rw [epe_draft email env s user mref info hu hact hcreds hl hage
                    hdup hp hdraft] at h
                  simp at h
                | true =>
                  rw [epe_core_eq email env s user mref info hu hact hcreds hl hage
                    hdup hp hdraft] at h
                  exact ⟨user, mref, info, rfl, hact, rfl, rfl, hage, hdup, rfl,
                    hdraft, h⟩

theorem pe_summaryWriteLast (email : String) (env : Env) (s : PState) :
    summaryWriteLast (process_event email env s).2 = true := by
  rcases hu : env.user with _ | user
  · rw [pe_user_none email env s hu]; rfl
  · cases hact : user.is_active with
    | false => rw [pe_inactive email env s user hu hact]; rfl
    | true =>
      cases hcreds : env.credsOk with
      | false => rw [pe_nocreds email env s user hu hact hcreds]; rfl
      | true =>
        rcases hl : env.listedMsg with _ | mref
        · rw [pe_nolist email env s user hu hact hcreds hl]; rfl
        · cases hage : ageSkip user.last_started_at (mkRat env.internalDate 1000) with
          | true => rw [pe_age email env s user mref hu hact hcreds hl hage]; rfl
          | false =>
            cases hdup : (s.history.contains mref.id ||
                (get_email_log_by_message_id s.store mref.id).isSome) with
            | true => rw [pe_dup email env s user mref hu hact hcreds hl hage hdup]; rfl
            | false =>
              cases hdraft : env.labelIds.contains "DRAFT" with
              | true =>
                rw [pe_draft email env s user mref hu hact hcreds hl hage hdup hdraft]; rfl
              | false =>
                rw [pe_core_eq email env s user mref hu hact hcreds hl hage hdup hdraft]
                exact core_summaryWriteLast email env s user mref

theorem epe_summaryWriteLast (email : String) (env : EPEnv) (s : EPState) :
    summaryWriteLast (process_email_event email env s).2 = true := by
  rcases hu : env.user with _ | user
  · rw [epe_user_none email env s hu]; rfl
  · cases hact : user.is_active with
    | false => rw [epe_inactive email env s user hu hact]; rfl
    | true =>
      cases hcreds : env.credsOk with
      | false => rw [epe_nocreds email env s user hu hact hcreds]; rfl
      | true =>
        rcases hl : env.listedMsg with _ | mref
        · rw [epe_nolist email env s user hu hact hcreds hl]; rfl
        · cases hage : validate_email_age (mkRat env.internalDate 1000)
              user.last_started_at with
          | false => rw [epe_age email env s user mref hu hact hcreds hl hage]; rfl
          | true =>
            cases hdup : validate_not_duplicate s.store mref.id with
            | false => rw [epe_dup email env s user mref hu hact hcreds hl hage hdup]; rfl
            | true =>
              rcases hp : env.parsed with _ | info
              · rw [epe_parse_none email env s user mref hu hact hcreds hl hage hdup hp]; rfl
              · cases hdraft : validate_draft_exclusion info.label_ids with
                | false =>
                  rw [epe_draft email env s user mref info hu hact hcreds hl hage
                    hdup hp hdraft]
                  rfl
                | true =>
                  rw [epe_core_eq email env s user mref info hu hact hcreds hl hage
                    hdup hp hdraft]
                  exact ep_core_summaryWriteLast email env s user mref info

/-- C9: gate ordering and side-effect freedom, for both orchestrator
variants.  (a) A missing or inactive user yields no effect at all — no AI
call, no log write, state untouched.  (b) An AI-capability invocation occurs
only in runs where every validation gate passed (user active, credentials
good, a message listed, age gate, duplicate gate, draft gate).  (c) The
summary-log write, when it happens, is the final effect of the run — in
particular it never precedes the AI call, and no persistence of the summary
log happens before summarization completes (backfill writes, which are not
summary logs, do precede the AI call by design). -/
theorem C9_gate_ordering (email : String) (env : Env) (s : PState)
    (emailB : String) (envB : EPEnv) (sB : EPState) :
    ((env.user = none ∨ ∃ u, env.user = some u ∧ u.is_active = false) →
      process_event email env s = (s, [])) ∧
    (Effect.aiCall ∈ (process_event email env s).2 →
      ∃ user mref, env.user = some user ∧ user.is_active = true ∧
        env.credsOk = true ∧ env.listedMsg = some mref ∧
        ageSkip user.last_started_at (mkRat env.internalDate 1000) = false ∧
        s.history.contains mref.id = false ∧
        (get_email_log_by_message_id s.store mref.id).isSome = false ∧
        env.labelIds.contains "DRAFT" = false) ∧
    (summaryWriteLast (process_event email env s).2 = true) ∧
    ((envB.user = none ∨ ∃ u, envB.user = some u ∧ u.is_active = false) →
      process_email_event emailB envB sB = (sB, [])) ∧
    (Effect.aiCall ∈ (process_email_event emailB envB sB).2 →
      ∃ user mref info, envB.user = some user ∧ user.is_active = true ∧
        envB.credsOk = true ∧ envB.listedMsg = some mref ∧
        validate_email_age (mkRat envB.internalDate 1000) user.last_started_at = true ∧
        validate_not_duplicate sB.store mref.id = true ∧
        envB.parsed = some info ∧
        validate_draft_exclusion info.label_ids = true) ∧
    (summaryWriteLast (process_email_event emailB envB sB).2 = true) := by
  refine ⟨?_, ?_, pe_summaryWriteLast email env s, ?_, ?_,
    epe_summaryWriteLast emailB envB sB⟩
  · rintro (hu | ⟨u, hu, hact⟩)
    · exact pe_user_none email env s hu
    · exact pe_inactive email env s u hu hact
  · intro h
    obtain ⟨user, mref, hu, hact, hc, hl, hage, h1, h2, h3, _⟩ :=
      pe_effect_cases email env s Effect.aiCall h
    exact ⟨user, mref, hu, hact, hc, hl, hage, h1, h2, h3⟩
  · rintro (hu | ⟨u, hu, hact⟩)
    · exact epe_user_none emailB envB sB hu
    · exact epe_inactive emailB envB sB u hu hact
  · intro h
    obtain ⟨user, mref, info, hu, hact, hc, hl, hage, hdup, hp, hdraft, _⟩ :=
      epe_effect_cases emailB envB sB Effect.aiCall h
    exact ⟨user, mref, info, hu, hact, hc, hl, hage, hdup, hp, hdraft⟩

/-- C9 witness: the inactive-user runs do nothing for both variants, and the
ordering checker holds on the concrete successful environments. -/
theorem C9_gate_ordering_witness :
    (process_event "u@x" fixEnvInactive fixState0 = (fixState0, [])) ∧
    (summaryWriteLast (process_event "u@x" fixEnvFoo fixState0).2 = true) ∧
    (process_email_event "u@x" fixEPEnvInactive fixEPState0 = (fixEPState0, [])) ∧
    (summaryWriteLast (process_email_event "u@x" fixEPEnv fixEPState0).2 = true) :=
  ⟨(C9_gate_ordering "u@x" fixEnvInactive fixState0 "u@x" fixEPEnvInactive
      fixEPState0).1 (Or.inr ⟨_, rfl, rfl⟩),
    (C9_gate_ordering "u@x" fixEnvFoo fixState0 "u@x" fixEPEnv fixEPState0).2.2.1,
    (C9_gate_ordering "u@x" fixEnvInactive fixState0 "u@x" fixEPEnvInactive
      fixEPState0).2.2.2.1 (Or.inr ⟨_, rfl, rfl⟩),
    (C9_gate_ordering "u@x" fixEnvFoo fixState0 "u@x" fixEPEnv
      fixEPState0).2.2.2.2.2⟩

/-- C2: idempotency and the duplicate gate, for both orchestrator variants.
(1) Along any sequence of sequential `process_event` calls whose listed
newest message always carries the same `message_id`, the store never holds
more than one EmailLog with that id (backfill can never write the current
message's id — the synthesis loop skips `current_message_id`).  (2) In
`event_processor/processor.py` the duplicate gate fails when the id is in the
LocalHistory tracker OR already persisted, and on a hit the tracker is
updated before returning and nothing is written.  (3)–(5) the email_processor
variant: same sequential idempotency; its gate consults only the persisted
store, but every id its `EmailDeduplicator` holds is already persisted (the
`trackerSound` invariant, preserved by every run and true of the initial
empty tracker), so the gate equally fails whenever the id is persisted OR
tracked, with the tracker updated and nothing written on a hit. -/
theorem C2_idempotency (email : String) (envs : List Env) (m : String)
    (s : PState) (env1 : Env) (s1 : PState) (user : UserRec) (mref : MsgRef)
    (emailB : String) (envsB : List EPEnv) (sB : EPState) (envB : EPEnv)
    (sB1 : EPState) (userB : UserRec) (mrefB : MsgRef) :
    ((∀ env ∈ envs, ∀ r, env.listedMsg = some r → r.id = m) →
      countLogs s.store m ≤ 1 →
      countLogs (runEvents email envs s).store m ≤ 1) ∧
    (env1.user = some user → user.is_active = true → env1.credsOk = true →
      env1.listedMsg = some mref →
      ageSkip user.last_started_at (mkRat env1.internalDate 1000) = false →
      (s1.history.contains mref.id ||
        (get_email_log_by_message_id s1.store mref.id).isSome) = true →
      process_event email env1 s1 =
        ({ s1 with history := dequeAppend s1.history mref.id s1.historyMax }, [])) ∧
    ((∀ env ∈ envsB, ∀ r, env.listedMsg = some r → r.id = m) →
      countLogs sB.store m ≤ 1 →
      countLogs (runEmailEvents emailB envsB sB).store m ≤ 1) ∧
    (trackerSound sB1 →
      ((get_email_log_by_message_id sB1.store mrefB.id).isSome = true ∨
        mrefB.id ∈ sB1.dedup.seen_ids) →
      envB.user = some userB → userB.is_active = true → envB.credsOk = true →
      envB.listedMsg = some mrefB →
      validate_email_age (mkRat envB.internalDate 1000) userB.last_started_at = true →
      process_email_event emailB envB sB1 =
        ({ sB1 with dedup := (sB1.dedup.mark_processed mrefB.id).1 }, [])) ∧
    (trackerSound sB1 → trackerSound (process_email_event emailB envB sB1).1) := by
  refine ⟨?_, ?_, ?_, ?_, epe_trackerSound_step emailB envB sB1⟩
  · intro hlist hc
    exact pe_count_run email envs s m hlist hc
  · intro hu hact hc hl hage hdup
    exact pe_dup email env1 s1 user mref hu hact hc hl hage hdup
  · intro hlist hc
    exact epe_count_run emailB envsB sB m hlist hc
  · intro hts hor hu hact hc hl hage
    exact epe_dup emailB envB sB1 userB mrefB hu hact hc hl hage
      (epe_gate_or sB1 mrefB.id hts hor)

/-- C2 witness: two consecutive `process_event` runs that both list message
m1 leave at most one log with id m1; the duplicate gate fires on the second
of two identical email-processor runs because m1 became persisted; and the
tracker invariant holds of the state after one run. -/
theorem C2_idempotency_witness :
    countLogs (runEvents "u@x" [fixEnvFoo, fixEnvFoo] fixState0).store "m1" ≤ 1 ∧
    countLogs (runEmailEvents "u@x" [fixEPEnv, fixEPEnv] fixEPState0).store "m1" ≤ 1 ∧
    trackerSound (process_email_event "u@x" fixEPEnv fixEPState0).1 := by
  refine ⟨?_, ?_, ?_⟩
  · refine (C2_idempotency "u@x" [fixEnvFoo, fixEnvFoo] "m1" fixState0 fixEnvFoo
      fixState0 fixUserFoo ⟨"m1", "T"⟩ "u@x" [] fixEPState0 fixEPEnv fixEPState0
      fixUserFoo ⟨"m1", "T"⟩).1 ?_ (by decide)
    intro e he r hr
    have he' : e = fixEnvFoo := by
      rcases List.mem_cons.mp he with rfl | he2
      · rfl
      · rcases List.mem_cons.mp he2 with rfl | he3
        · rfl
        · exact absurd he3 (List.not_mem_nil e)
    subst he'
    cases hr
    rfl
  · refine (C2_idempotency "u@x" [] "m1" fixState0 fixEnvFoo fixState0 fixUserFoo
      ⟨"m1", "T"⟩ "u@x" [fixEPEnv, fixEPEnv] fixEPState0 fixEPEnv fixEPState0
      fixUserFoo ⟨"m1", "T"⟩).2.2.1 ?_ (by decide)
    intro e he r hr
    have he' : e = fixEPEnv := by
      rcases List.mem_cons.mp he with rfl | he2
      · rfl
      · rcases List.mem_cons.mp he2 with rfl | he3
        · rfl
        · exact absurd he3 (List.not_mem_nil e)
    subst he'
    cases hr
    rfl
  · refine (C2_idempotency "u@x" [] "m1" fixState0 fixEnvFoo fixState0 fixUserFoo
      ⟨"m1", "T"⟩ "u@x" [] fixEPState0 fixEPEnv fixEPState0 fixUserFoo
      ⟨"m1", "T"⟩).2.2.2.2 ?_
    intro id hid
    simp [fixEPState0, EmailDeduplicator.init] at hid

set_option maxRecDepth 8000 in
/-- C3 counterexample: the configuration error IS swallowed mid-pipeline.
With an otherwise fully successful environment whose user selected the
unknown provider "foo", `process_event` completes, persists a log whose
summary is the stringified ValueError, and never invokes any AI capability —
the `try/except` around `AIFactory.get_service` caught the error and
converted it into a summary string, contradicting the claim that it "is not
caught and converted to a summary string mid-pipeline". -/
theorem C3_counterexample :
    (process_event "u@x" fixEnvFoo fixState0).1.store.map (fun l => l.summary) =
      ["[AI ERROR]: Unknown AI Provider: foo"] ∧
    Effect.aiCall ∉ (process_event "u@x" fixEnvFoo fixState0).2 := by
  constructor <;> decide

set_option maxRecDepth 8000 in
/-- C3 (amended): `AIFactory.get_service` does raise
`ValueError("Unknown AI Provider: ...")` synchronously at dispatch
construction for any name other than "gemini"/"openai" — but
`process_event`'s inner `try/except` catches that error mid-pipeline and
converts it into the persisted summary string `"[AI ERROR]: ..."`; every
summary log written by a run whose `get_service` raised carries exactly that
string, and such a run makes no AI call. -/
theorem C3_unknown_provider (g o : Except String Unit) (p : String)
    (email : String) (env : Env) (s : PState) (lg : EmailLog) :
    (p ≠ "gemini" → p ≠ "openai" →
      AIFactory.get_service p g o = .error ("Unknown AI Provider: " ++ p)) ∧
    (Effect.summaryWrite lg ∈ (process_event email env s).2 →
      ∃ user, env.user = some user ∧
        (∀ e, AIFactory.get_service user.ai_provider env.geminiInit
          env.openaiInit = .error e → lg.summary = "[AI ERROR]: " ++ e)) ∧
    ((process_event "u@x" fixEnvFoo fixState0).1.store.map (fun l => l.summary) =
      ["[AI ERROR]: Unknown AI Provider: foo"]) := by
  refine ⟨?_, ?_, by decide⟩
  · intro h1 h2
    simp [AIFactory.get_service, h1, h2]
  · intro h
    obtain ⟨user, mref, hu, _, _, _, _, _, _, _, hcore⟩ :=
      pe_effect_cases email env s (Effect.summaryWrite lg) h
    exact ⟨user, hu, (core_summaryWrite email env s user mref lg hcore).2.2.2.1⟩

/-- C3 witness: instantiated at provider "foo". -/
theorem C3_unknown_provider_witness :
    AIFactory.get_service "foo" (.ok ()) (.ok ()) =
      .error ("Unknown AI Provider: " ++ "foo") :=
  (C3_unknown_provider (.ok ()) (.ok ()) "foo" "u@x" fixEnvFoo fixState0
    { user_email := "u@x", message_id := "m1", thread_id := "T", sender := "al",
      subject := "No Subject", summary := "", timestamp := 60 }).1 (by decide) (by decide)

set_option maxRecDepth 4000 in
theorem pyFormat_default_ok (v e : String) :
    ∃ s, pyFormat DEFAULT_TEMPLATE v e = .ok s :=
  ⟨_, rfl⟩

set_option maxRecDepth 2000 in
/-- C8 counterexample: composition CAN raise — a template consisting of a
single opening brace raises `ValueError`, which `PromptBuilder.build` does
not catch (only `KeyError` is caught); and on the summarizer's fallback path
the raw empty context is interpolated, so the composed prompt contains a
blank context field ("Context: " followed directly by a newline). -/
theorem C8_counterexample :
    PromptBuilder.build "\x7b" "c" "e" =
      .error (.valueError "Single brace encountered in format string") ∧
    EmailSummarizer.build_prompt "\x7bbad\x7d" "" "x" =
      .ok "Context: \n\nEmail: x\n\nPlease summarize this email." := by
  constructor <;> decide

/-- C8 (amended): the compositor never fails with a `KeyError`-class error:
an unknown named placeholder triggers `PromptBuilder.build`'s fallback to the
fixed default template applied to the same two values (and the fallback
always succeeds); an empty context string is replaced by the fixed
"No previous conversation history." phrase before templating, which is never
blank.  However, templates with positional or malformed fields (`\x7b0\x7d`, a lone
`\x7b`) raise IndexError/ValueError uncaught; and on the summarizer's
`_build_prompt` fallback path the RAW context is interpolated into an
f-string, so an empty context does yield a blank context field there. -/
theorem C8_prompt_fallback (t c e : String) :
    ((if c = "" then "No previous conversation history." else c) ≠ "") ∧
    (∀ err, PromptBuilder.build t c e = .error err → err.isKeyError = false) ∧
    (∀ k, pyFormat t (if c = "" then "No previous conversation history." else c) e =
        .error (.keyError k) →
      PromptBuilder.build t c e =
        pyFormat DEFAULT_TEMPLATE
          (if c = "" then "No previous conversation history." else c) e ∧
      ∃ s, PromptBuilder.build t c e = .ok s) ∧
    (∀ err, EmailSummarizer.build_prompt t c e = .error err →
      err.isKeyError = false) ∧
    (∀ k, pyFormat t (if c = "" then "No previous conversation history." else c) e =
        .error (.keyError k) →
      EmailSummarizer.build_prompt t c e =
        .ok ("Context: " ++ c ++ "\n\nEmail: " ++ e ++
          "\n\nPlease summarize this email.")) := by
  refine ⟨?_, ?_, ?_, ?_, ?_⟩
  · by_cases hc : c = "" <;> simp [hc]
  · intro err herr
    simp only [PromptBuilder.build] at herr
    cases hpf : pyFormat t (if c = "" then "No previous conversation history." else c) e with
    | ok v => rw [hpf] at herr; cases herr
    | error pe =>
      rw [hpf] at herr
      cases pe with
      | keyError k =>
        obtain ⟨v, hv⟩ := pyFormat_default_ok
          (if c = "" then "No previous conversation history." else c) e
        rw [hv] at herr
        cases herr
      | indexError msg => cases herr; rfl
      | valueError msg => cases herr; rfl
      | attrError msg => cases herr; rfl
  · intro k hk
    constructor
    · simp only [PromptBuilder.build]
      rw [hk]
    · obtain ⟨v, hv⟩ := pyFormat_default_ok
        (if c = "" then "No previous conversation history." else c) e
      refine ⟨v, ?_⟩
      simp only [PromptBuilder.build]
      rw [hk, hv]
  · intro err herr
    simp only [EmailSummarizer.build_prompt] at herr
    cases hpf : pyFormat t (if c = "" then "No previous conversation history." else c) e with
    | ok v => rw [hpf] at herr; cases herr
    | error pe =>
      rw [hpf] at herr
      cases pe with
      | keyError k => cases herr
      | indexError msg => cases herr; rfl
      | valueError msg => cases herr; rfl
      | attrError msg => cases herr; rfl
  · intro k hk
    simp only [EmailSummarizer.build_prompt]
    rw [hk]

/-- C8 witness: at the template "\x7bbad\x7d" (unknown placeholder) with empty
context, the format raises `KeyError` and `build` returns the default
template's rendering, which succeeds; `_build_prompt` returns its raw-context
fallback string. -/
theorem C8_prompt_fallback_witness :
    PromptBuilder.build "\x7bbad\x7d" "" "x" =
      pyFormat DEFAULT_TEMPLATE "No previous conversation history." "x" ∧
    EmailSummarizer.build_prompt "\x7bbad\x7d" "" "x" =
      .ok ("Context: " ++ "" ++ "\n\nEmail: " ++ "x" ++
        "\n\nPlease summarize this email.") :=
  ⟨((C8_prompt_fallback "\x7bbad\x7d" "" "x").2.2.1 "bad" (by decide)).1,
    (C8_prompt_fallback "\x7bbad\x7d" "" "x").2.2.2.2 "bad" (by decide)⟩
